import Mathlib

/-!
Verification development for the geohelpertool multi-format geospatial
input pipeline (`src/utils/lineClipping.ts`, which holds both the line
clipper and the multi-format parser module) against its natural-language
specification.

Modelling conventions:
* JavaScript values are modelled by the inductive `Js`; JS numbers are
  modelled exactly by `ℚ` (no claim under scrutiny depends on binary
  floating-point rounding).
* Property access `x.k` on `null`/`undefined` throws in JS; this is
  modelled by `Js.getE : Js → String → Except Unit Js`, and functions in
  which such an access is reachable are written in the `Except Unit`
  monad, with the source's `try/catch` as the handler at the boundary.
* External collaborators that are not part of this repository
  (the `@turf` geometry validator, the `wkt` codec, the strict
  `geojson-validation` validator, the `@mapbox/polyline` codec, the
  `decodeURI` builtin, and turf's `length`/`lineSliceAlong`) are passed
  as explicit function parameters (`ExtLibs`, `Turf`); universally
  quantified theorems hold for every instantiation.  Concrete
  instantiations used by closed witnesses are modelled from the spec and
  are marked as such.
* Error message strings are modelled up to their constant parts; dynamic
  interpolated segments (offending values, indices, exception text) are
  omitted from the modelled strings.  No claim depends on them.
-/

/-- A JavaScript value: `null`, `undefined`, booleans, (exact) numbers,
strings, arrays and plain objects (field lists in insertion order). -/
inductive Js where
  | null : Js
  | undef : Js
  | bool : Bool → Js
  | num : ℚ → Js
  | str : String → Js
  | arr : List Js → Js
  | obj : List (String × Js) → Js
deriving Repr

namespace Js

/-- Property lookup on an object field list (first binding wins; objects
built by our JSON parser overwrite duplicates in place, so lists are
duplicate-free in practice). -/
def lookupField : List (String × Js) → String → Option Js
  | [], _ => none
  | (k, v) :: rest, key => if k = key then some v else lookupField rest key

/-- Non-throwing property access: `x.k` where `x` is known not to be
`null`/`undefined`.  Named string properties of primitives and arrays
read as `undefined` (none of the property names used by the parser exist
on the relevant prototypes). -/
def get : Js → String → Js
  | .obj fields, key => (lookupField fields key).getD Js.undef
  | _, _ => Js.undef

/-- `"k" in x`: key presence (even with an `undefined` value). -/
def hasKey : Js → String → Bool
  | .obj fields, key => (lookupField fields key).isSome
  | _, _ => false

/-- Throwing property access: `x.k` throws a `TypeError` when `x` is
`null` or `undefined`. -/
def getE : Js → String → Except Unit Js
  | .null, _ => .error ()
  | .undef, _ => .error ()
  | v, key => .ok (v.get key)

/-- JavaScript truthiness (`NaN` is excluded from the model). -/
def truthy : Js → Bool
  | .null => false
  | .undef => false
  | .bool b => b
  | .num q => q != 0
  | .str s => s ≠ ""
  | .arr _ => true
  | .obj _ => true

/-- `typeof x === "object"` (true for `null`, arrays and objects). -/
def typeofObject : Js → Bool
  | .null => true
  | .arr _ => true
  | .obj _ => true
  | _ => false

/-- `x.length` as read by the parser: arrays and strings have a numeric
length; other non-nullish values read `undefined` (modelled `none`);
reading `.length` off `null`/`undefined` throws. -/
def lengthE : Js → Except Unit (Option Int)
  | .null => .error ()
  | .undef => .error ()
  | .arr l => .ok (some (l.length : Int))
  | .str s => .ok (some (s.length : Int))
  | _ => .ok none

/-- The element sequence a `for (i = 0; i < xs.length; i++)` loop walks:
arrays yield their elements, strings their one-character substrings, any
other non-nullish value yields nothing; `null`/`undefined` throw (the
`.length` read in the loop condition). -/
def seqE : Js → Except Unit (List Js)
  | .null => .error ()
  | .undef => .error ()
  | .arr l => .ok l
  | .str s => .ok (s.toList.map fun c => .str (String.mk [c]))
  | _ => .ok []

end Js


/-! ### String helpers (ASCII fragment of the JS semantics) -/

/-- JS `\s` / `String.prototype.trim` whitespace, ASCII fragment
(space, tab, LF, VT, FF, CR). -/
def isJsWhitespace (c : Char) : Bool :=
  c = ' ' || c = '\t' || c = '\n' || c = Char.ofNat 11 || c = Char.ofNat 12 || c = '\r'

/-- `String.prototype.trim` on a character list. -/
def trimL (cs : List Char) : List Char :=
  ((cs.dropWhile isJsWhitespace).reverse.dropWhile isJsWhitespace).reverse

/-- `input.trim()`. -/
def trimS (s : String) : String := String.mk (trimL s.toList)

/-- Numeric value of a digit run (most significant first). -/
def digitsToNat (ds : List Char) : Nat :=
  ds.foldl (fun acc c => acc * 10 + (c.toNat - 48)) 0

/-! ### The Lat/Lng number scanner

Models the global regex match of the pattern
`-?\d+(?:\.\d+)?(?:[eE][+-]?\d+)?` (flag g) in `parseLatLngList`:
repeatedly find the leftmost position where the pattern matches, take the
greedy match there, and continue after it. -/

/-- Attempt to match the pattern `-?\d+(?:\.\d+)?(?:[eE][+-]?\d+)?` at the head of
the input; on success return the matched characters and the rest. -/
def matchNumberAt (cs : List Char) : Option (List Char × List Char) :=
  let signRest : List Char × List Char :=
    match cs with
    | '-' :: r => (['-'], r)
    | _ => ([], cs)
  let sign := signRest.1
  let (ip, rest2) := signRest.2.span Char.isDigit
  if ip.isEmpty then none else
  let fracRest : List Char × List Char :=
    match rest2 with
    | '.' :: r =>
      let (ds, r2) := r.span Char.isDigit
      if ds.isEmpty then ([], rest2) else ('.' :: ds, r2)
    | _ => ([], rest2)
  let fp := fracRest.1
  let rest3 := fracRest.2
  let expRest : List Char × List Char :=
    match rest3 with
    | e :: r =>
      if e = 'e' || e = 'E' then
        match r with
        | s :: r2 =>
          if s = '+' || s = '-' then
            let (ds, r3) := r2.span Char.isDigit
            if ds.isEmpty then ([], rest3) else (e :: s :: ds, r3)
          else
            let (ds, r3) := r.span Char.isDigit
            if ds.isEmpty then ([], rest3) else (e :: ds, r3)
        | [] => ([], rest3)
      else ([], rest3)
    | [] => ([], rest3)
  some (sign ++ ip ++ fp ++ expRest.1, expRest.2)

/-- Fueled scan for successive matches (fuel `≥` input length always
suffices: every step either consumes a whole match of length `≥ 1` or
advances one character). -/
def scanNumbers : Nat → List Char → List (List Char)
  | 0, _ => []
  | Nat.succ fuel, cs =>
    match cs with
    | [] => []
    | _ :: t =>
      match matchNumberAt cs with
      | some (m, rest) => m :: scanNumbers fuel rest
      | none => scanNumbers fuel t

/-- All regex matches of the signed-decimal/scientific number pattern in
the input, in order. -/
def extractNumberTokens (s : String) : List String :=
  (scanNumbers s.toList.length s.toList).map String.mk

/-- `10 ^ n` over `ℚ` by structural recursion (kernel-reducible). -/
def pow10Q : Nat → ℚ
  | 0 => 1
  | Nat.succ n => pow10Q n * 10

/-- `10 ^ e` over `ℚ` for a signed exponent. -/
def pow10Z (e : Int) : ℚ :=
  if 0 ≤ e then pow10Q e.toNat else 1 / pow10Q (-e).toNat

/-- `2 ^ n` over `Int` by structural recursion (kernel-reducible). -/
def pow2Z : Nat → Int
  | 0 => 1
  | Nat.succ n => 2 * pow2Z n

/-- `parseFloat` on a token produced by the scanner (tokens are fully
well-formed numbers, so the parse is exact over `ℚ`). -/
def parseFloatQ (s : String) : Option ℚ :=
  let cs := s.toList
  let signRest : Bool × List Char :=
    match cs with
    | '-' :: r => (true, r)
    | _ => (false, cs)
  let (ip, r2) := signRest.2.span Char.isDigit
  if ip.isEmpty then none else
  let fracRest : List Char × List Char :=
    match r2 with
    | '.' :: r =>
      let (ds, r3) := r.span Char.isDigit
      if ds.isEmpty then ([], r2) else (ds, r3)
    | _ => ([], r2)
  let fd := fracRest.1
  let expVal : Int :=
    match fracRest.2 with
    | e :: r =>
      if e = 'e' || e = 'E' then
        match r with
        | '+' :: r2 => (digitsToNat (r2.span Char.isDigit).1 : Int)
        | '-' :: r2 => -(digitsToNat (r2.span Char.isDigit).1 : Int)
        | _ => (digitsToNat (r.span Char.isDigit).1 : Int)
      else 0
    | [] => 0
  let mant : Int := (digitsToNat (ip ++ fd) : Int)
  let signed : Int := if signRest.1 then -mant else mant
  some ((signed : ℚ) / pow10Q fd.length * pow10Z expVal)

/-! ### `JSON.parse` -/

/-- JSON insignificant whitespace. -/
def isJsonWs (c : Char) : Bool :=
  c = ' ' || c = '\t' || c = '\n' || c = '\r'

/-- Skip insignificant whitespace. -/
def jsonSkipWs (cs : List Char) : List Char := cs.dropWhile isJsonWs

/-- Hex digit value. -/
def hexVal (c : Char) : Option Nat :=
  if '0' ≤ c && c ≤ '9' then some (c.toNat - 48)
  else if 'a' ≤ c && c ≤ 'f' then some (c.toNat - 87)
  else if 'A' ≤ c && c ≤ 'F' then some (c.toNat - 55)
  else none

/-- JS-object assignment `o[k] = v`: overwrite an existing binding in
place, otherwise append (key insertion order preserved). -/
def objSet (fields : List (String × Js)) (k : String) (v : Js) : List (String × Js) :=
  match fields with
  | [] => [(k, v)]
  | (k0, v0) :: rest => if k0 = k then (k0, v) :: rest else (k0, v0) :: objSet rest k v

/-- Body of a JSON string after the opening quote (fueled; fuel `≥`
input length suffices).  Lone surrogate escapes are rejected (they have
no `Char` counterpart). -/
def jsonStringBody : Nat → List Char → Option (String × List Char)
  | 0, _ => none
  | Nat.succ fuel, cs =>
    match cs with
    | [] => none
    | '"' :: r => some ("", r)
    | '\\' :: e :: r =>
      let esc : Option (Char × List Char) :=
        match e, r with
        | '"', _ => some ('"', r)
        | '\\', _ => some ('\\', r)
        | '/', _ => some ('/', r)
        | 'b', _ => some (Char.ofNat 8, r)
        | 'f', _ => some (Char.ofNat 12, r)
        | 'n', _ => some ('\n', r)
        | 'r', _ => some ('\r', r)
        | 't', _ => some ('\t', r)
        | 'u', h1 :: h2 :: h3 :: h4 :: r2 =>
          match hexVal h1, hexVal h2, hexVal h3, hexVal h4 with
          | some a, some b, some c, some d =>
            let n := ((a * 16 + b) * 16 + c) * 16 + d
            if 0xd800 ≤ n && n ≤ 0xdfff then none else some (Char.ofNat n, r2)
          | _, _, _, _ => none
        | _, _ => none
      match esc with
      | some (c, r2) =>
        match jsonStringBody fuel r2 with
        | some (s, r3) => some (String.mk (c :: s.toList), r3)
        | none => none
      | none => none
    | c :: r =>
      if c.toNat < 0x20 then none
      else
        match jsonStringBody fuel r with
        | some (s, r2) => some (String.mk (c :: s.toList), r2)
        | none => none

/-- A JSON number at the head of the input (strict JSON grammar: no
leading zeros, a fraction/exponent must carry digits). -/
def jsonNumberAt (cs : List Char) : Option (Js × List Char) :=
  let signRest : Bool × List Char :=
    match cs with
    | '-' :: r => (true, r)
    | _ => (false, cs)
  let (ip, r2) := signRest.2.span Char.isDigit
  if ip.isEmpty then none
  else if ip.length > 1 && ip.headD '0' = '0' then none
  else
    let fracPart : Option (List Char × List Char) :=
      match r2 with
      | '.' :: r =>
        let (ds, r3) := r.span Char.isDigit
        if ds.isEmpty then none else some (ds, r3)
      | _ => some ([], r2)
    match fracPart with
    | none => none
    | some (fd, r3) =>
      let expPart : Option (Int × List Char) :=
        match r3 with
        | e :: r =>
          if e = 'e' || e = 'E' then
            match r with
            | '+' :: r4 =>
              let (ds, r5) := r4.span Char.isDigit
              if ds.isEmpty then none else some ((digitsToNat ds : Int), r5)
            | '-' :: r4 =>
              let (ds, r5) := r4.span Char.isDigit
              if ds.isEmpty then none else some (-(digitsToNat ds : Int), r5)
            | _ =>
              let (ds, r5) := r.span Char.isDigit
              if ds.isEmpty then none else some ((digitsToNat ds : Int), r5)
          else some (0, r3)
        | [] => some (0, r3)
      match expPart with
      | none => none
      | some (ev, r6) =>
        let mant : Int := (digitsToNat (ip ++ fd) : Int)
        let signed : Int := if signRest.1 then -mant else mant
        some (.num ((signed : ℚ) / pow10Q fd.length * pow10Z ev), r6)

mutual

/-- A JSON value at the head of the input (fueled; `jsonParse` supplies
ample fuel). -/
def jsonValue : Nat → List Char → Option (Js × List Char)
  | 0, _ => none
  | Nat.succ fuel, cs =>
    match jsonSkipWs cs with
    | 'n' :: 'u' :: 'l' :: 'l' :: r => some (.null, r)
    | 't' :: 'r' :: 'u' :: 'e' :: r => some (.bool true, r)
    | 'f' :: 'a' :: 'l' :: 's' :: 'e' :: r => some (.bool false, r)
    | '"' :: r =>
      match jsonStringBody (r.length + 1) r with
      | some (s, r2) => some (.str s, r2)
      | none => none
    | '[' :: r =>
      match jsonSkipWs r with
      | ']' :: r2 => some (.arr [], r2)
      | _ => jsonElems fuel r []
    | '{' :: r =>
      match jsonSkipWs r with
      | '}' :: r2 => some (.obj [], r2)
      | _ => jsonMembers fuel r []
    | cs2 => jsonNumberAt cs2

/-- Comma-separated array elements, then the closing bracket. -/
def jsonElems : Nat → List Char → List Js → Option (Js × List Char)
  | 0, _, _ => none
  | Nat.succ fuel, cs, acc =>
    match jsonValue fuel cs with
    | none => none
    | some (v, r) =>
      match jsonSkipWs r with
      | ',' :: r2 => jsonElems fuel r2 (acc ++ [v])
      | ']' :: r2 => some (.arr (acc ++ [v]), r2)
      | _ => none

/-- Comma-separated object members, then the closing brace (duplicate
keys overwrite in place, as in JS). -/
def jsonMembers : Nat → List Char → List (String × Js) → Option (Js × List Char)
  | 0, _, _ => none
  | Nat.succ fuel, cs, acc =>
    match jsonSkipWs cs with
    | '"' :: r =>
      match jsonStringBody (r.length + 1) r with
      | none => none
      | some (k, r1) =>
        match jsonSkipWs r1 with
        | ':' :: r2 =>
          match jsonValue fuel r2 with
          | none => none
          | some (v, r3) =>
            match jsonSkipWs r3 with
            | ',' :: r4 => jsonMembers fuel r4 (objSet acc k v)
            | '}' :: r4 => some (.obj (objSet acc k v), r4)
            | _ => none
        | _ => none
    | _ => none

end

/-- `JSON.parse`: parse one value, then require only whitespace to
remain.  `none` models a thrown `SyntaxError`. -/
def jsonParse (s : String) : Option Js :=
  match jsonValue (2 * s.toList.length + 4) s.toList with
  | some (v, rest) => if (jsonSkipWs rest).isEmpty then some v else none
  | none => none

/-! ### Result and style types (`geoJsonParser` module) -/

/-- A style-hint record (`StyleProperties` in the source): an open JS
object, modelled as its field list in insertion order. -/
abbrev StyleRecord := List (String × Js)

/-- `ParseResult`: the universal output contract of every parser and the
dispatcher.  Absent (`undefined`) fields are `none`. -/
structure ParseResult where
  success : Bool
  data : Option Js
  error : Option String
  errorCode : Option String
  errorDetails : Option String
  type : Option String
  format : Option String
  geometryCount : Option Int
  isPartialGeoJSON : Option Bool
  styleProperties : Option (List StyleRecord)
deriving Repr

namespace ERROR_CODES

def INVALID_JSON : String := "INVALID_JSON"

def INVALID_GEOJSON_SCHEMA : String := "INVALID_GEOJSON_SCHEMA"

def INVALID_GEOMETRY : String := "INVALID_GEOMETRY"

def UNSUPPORTED_TYPE : String := "UNSUPPORTED_TYPE"

def MISSING_COORDINATES : String := "MISSING_COORDINATES"

def MALFORMED_COORDINATES : String := "MALFORMED_COORDINATES"

def FEATURE_GEOMETRY_ERROR : String := "FEATURE_GEOMETRY_ERROR"

def VALIDATION_ERROR : String := "VALIDATION_ERROR"

def PARSING_ERROR : String := "PARSING_ERROR"

def POLYLINE_ERROR : String := "POLYLINE_ERROR"

def WKT_ERROR : String := "WKT_ERROR"

def LATLNG_LIST_ERROR : String := "LATLNG_LIST_ERROR"

def AUTO_DETECTION_ERROR : String := "AUTO_DETECTION_ERROR"

end ERROR_CODES

namespace LayerType

def GEOJSON : String := "geojson"

def KML : String := "kml"

def COORDINATES : String := "coordinates"

def WKT : String := "wkt"

def POLYLINE : String := "polyline"

end LayerType

/-- `createErrorResult` (every call site in the source passes all three
arguments). -/
def createErrorResult (error : String) (errorCode : String) (errorDetails : String) : ParseResult :=
  { success := false, data := none, error := some error, errorCode := some errorCode,
    errorDetails := some errorDetails, type := none, format := none, geometryCount := none,
    isPartialGeoJSON := none, styleProperties := none }

/-- `getGeometryErrorSuggestion`. -/
def getGeometryErrorSuggestion (geometryType : String) : String :=
  if geometryType = "Point" then
    "Point coordinates should be [longitude, latitude] as numbers."
  else if geometryType = "LineString" then
    "LineString coordinates should be an array of [longitude, latitude] positions."
  else if geometryType = "Polygon" then
    "Polygon coordinates should be an array of linear ring arrays, with the first ring being the exterior boundary."
  else if geometryType = "MultiPoint" then
    "MultiPoint coordinates should be an array of Point coordinates."
  else if geometryType = "MultiLineString" then
    "MultiLineString coordinates should be an array of LineString coordinate arrays."
  else if geometryType = "MultiPolygon" then
    "MultiPolygon coordinates should be an array of Polygon coordinate arrays."
  else
    "Please check the GeoJSON specification for proper coordinate formatting."

/-- The seven GeoJSON geometry type names. -/
def geometryTypes : List String :=
  ["Point", "LineString", "Polygon", "MultiPoint", "MultiLineString", "MultiPolygon",
   "GeometryCollection"]

/-- `isGeometryObject`: a non-null object whose `type` is a geometry
type name and which has a `coordinates` key (or is a
`GeometryCollection`).  Arrays pass the `typeof` test in JS but never
have a `type` key, so only plain objects can qualify. -/
def isGeometryObject (o : Js) : Bool :=
  match o with
  | .obj _ =>
    match o.get "type" with
    | .str t => geometryTypes.contains t && (o.hasKey "coordinates" || t = "GeometryCollection")
    | _ => false
  | _ => false

/-- `Js` is a string? -/
def Js.isStr : Js → Bool
  | .str _ => true
  | _ => false

/-- `Js` is a number? -/
def Js.isNum : Js → Bool
  | .num _ => true
  | _ => false

/-- `extractStyleProperties`, fueled for the recursive descent into a
nested `style` object (any fuel at least the nesting depth computes the
JS value; `extractStyleProperties` below supplies `sizeOf`). -/
def extractStylePropertiesF : Nat → Js → StyleRecord
  | 0, _ => []
  | Nat.succ fuel, properties =>
    if !properties.truthy || !properties.typeofObject then []
    else
      let setIfStr (st : StyleRecord) (src dst : String) : StyleRecord :=
        if (properties.get src).isStr then objSet st dst (properties.get src) else st
      let setIfNum (st : StyleRecord) (src dst : String) : StyleRecord :=
        if (properties.get src).isNum then objSet st dst (properties.get src) else st
      -- Standard GeoJSON styling properties
      let style : StyleRecord := []
      let style := setIfStr style "stroke" "stroke"
      let style := setIfNum style "stroke-width" "strokeWidth"
      let style := setIfNum style "stroke-opacity" "strokeOpacity"
      let style := setIfStr style "fill" "fill"
      let style := setIfNum style "fill-opacity" "fillOpacity"
      -- Mapbox/Leaflet style properties
      let style := setIfStr style "color" "color"
      let style := setIfNum style "weight" "weight"
      let style := setIfNum style "opacity" "opacity"
      let style := setIfStr style "fillColor" "fill"
      let style := setIfNum style "fillOpacity" "fillOpacity"
      -- Alternative naming conventions
      let style := setIfStr style "strokeColor" "stroke"
      let style := setIfNum style "strokeWeight" "strokeWidth"
      let style := setIfStr style "lineColor" "stroke"
      let style := setIfNum style "lineWidth" "strokeWidth"
      -- Nested style object, merged key by key (later assignment wins)
      let styleVal := properties.get "style"
      let style :=
        if styleVal.truthy && styleVal.typeofObject then
          (extractStylePropertiesF fuel styleVal).foldl (fun st kv => objSet st kv.1 kv.2) style
        else style
      -- Marker passthrough keys, copied verbatim when truthy
      let style :=
        ["marker-color", "marker-size", "marker-symbol"].foldl
          (fun st prop =>
            if (properties.get prop).truthy then objSet st prop (properties.get prop) else st)
          style
      style

mutual

/-- Structural size of a `Js` value (computable fuel bound). -/
def jsSize : Js → Nat
  | .arr l => 1 + jsSizeList l
  | .obj l => 1 + jsSizeFields l
  | _ => 1

/-- Structural size of a `Js` array body. -/
def jsSizeList : List Js → Nat
  | [] => 0
  | x :: xs => 1 + jsSize x + jsSizeList xs

/-- Structural size of a `Js` object body. -/
def jsSizeFields : List (String × Js) → Nat
  | [] => 0
  | kv :: xs => 1 + jsSize kv.2 + jsSizeFields xs

end

/-- `extractStyleProperties`. -/
def extractStyleProperties (properties : Js) : StyleRecord :=
  extractStylePropertiesF (jsSize properties) properties

/-- The `FeatureCollection` loop of `extractAllStyleProperties`: push
one extracted record per feature whose `properties` is truthy; reading
`.properties` off a `null`/`undefined` member throws. -/
def collectFCStyles : List Js → Except Unit (List StyleRecord)
  | [] => .ok []
  | f :: rest =>
    match f.getE "properties" with
    | .error e => .error e
    | .ok props =>
      match collectFCStyles rest with
      | .error e => .error e
      | .ok tail =>
        if props.truthy then .ok (extractStyleProperties props :: tail)
        else .ok tail

/-- `extractAllStyleProperties`. -/
def extractAllStyleProperties (geoJson : Js) : Except Unit (List StyleRecord) :=
  match geoJson.getE "type" with
  | .error e => .error e
  | .ok (.str "FeatureCollection") =>
    match Js.seqE (geoJson.get "features") with
    | .error e => .error e
    | .ok elems => collectFCStyles elems
  | .ok (.str "Feature") =>
    match geoJson.getE "properties" with
    | .error e => .error e
    | .ok props =>
      if props.truthy then .ok [extractStyleProperties props]
      else .ok []
  | .ok _ => .ok []

/-! ### External collaborators

The parser module consumes several external libraries/builtins that are
not part of this repository (spec §6).  They are passed as explicit
function parameters; an `Except Unit` result models a thrown
exception. -/

/-- The external collaborators of the parser module:
`booleanValid` (`@turf/boolean-valid`), `strictValid`
(`geojson-validation`'s `valid`, returning an arbitrary JS value),
`wktParse` (the `wkt` library, a falsy result meaning failure),
`decodeURIFn` (the `decodeURI` builtin) and `polylineDecode`
(`@mapbox/polyline`'s `decode`, yielding `[lat, lng]` pairs). -/
structure ExtLibs where
  booleanValid : Js → Except Unit Bool
  strictValid : Js → Js
  wktParse : String → Except Unit Js
  decodeURIFn : String → Except Unit String
  polylineDecode : String → Except Unit (List (ℚ × ℚ))

/-- The nine recognized top-level GeoJSON `type` values. -/
def validTypes : List String :=
  ["Point", "LineString", "Polygon", "MultiPoint", "MultiLineString", "MultiPolygon",
   "GeometryCollection", "Feature", "FeatureCollection"]

/-- The lenient structural validation closure `isValidGeoJSON` defined
inside `parseGeoJSON`: a recognized `type`; a `FeatureCollection` needs
an array `features`; a `Feature` needs an object `geometry` with a
recognized geometry `type`; a bare geometry needs a defined
`coordinates` (or `geometries` for a `GeometryCollection`). -/
def isValidGeoJSON (data : Js) : Bool :=
  if !data.truthy || !data.typeofObject then false
  else
    match data.get "type" with
    | .str t =>
      if !validTypes.contains t then false
      else if t = "FeatureCollection" then
        match data.get "features" with
        | .arr _ => true
        | _ => false
      else if t = "Feature" then
        let g := data.get "geometry"
        g.truthy && g.typeofObject &&
          (match g.get "type" with
           | .str gt => validTypes.contains gt
           | _ => false)
      else
        (match data.get "coordinates" with
         | .undef => false
         | _ => true) ||
        (match data.get "geometries" with
         | .undef => false
         | _ => true)
    | _ => false

/-- The `type` string of a geometry value, for diagnostic text
(`"unknown"`/default hint when it is not a string). -/
def jsTypeString (g : Js) : String :=
  match g.get "type" with
  | .str t => t
  | _ => "unknown"

/-- `parsePartialGeoJSON`, body on the already-JSON-decoded value
(exceptions propagate to the wrapper's catch). -/
def parsePartialGeoJSONOnValue (ext : ExtLibs) (parsedData : Js) : Except Unit ParseResult :=
  if isGeometryObject parsedData then
    let t := jsTypeString parsedData
    match ext.booleanValid parsedData with
    | .error _ =>
      .ok (createErrorResult "Geometry validation failed" ERROR_CODES.VALIDATION_ERROR
        ("Failed to validate " ++ t ++ " geometry. " ++ getGeometryErrorSuggestion t))
    | .ok false =>
      .ok (createErrorResult "Invalid geometry: coordinates are not valid"
        ERROR_CODES.INVALID_GEOMETRY
        ("The " ++ t ++ " geometry has invalid coordinates. " ++ getGeometryErrorSuggestion t))
    | .ok true =>
      let feature : Js :=
        .obj [("type", .str "Feature"), ("geometry", parsedData), ("properties", .obj [])]
      match extractAllStyleProperties feature with
      | .error e => .error e
      | .ok styleProperties =>
        .ok { success := true, data := some feature, error := none, errorCode := none,
              errorDetails := none, type := some "Feature", format := some LayerType.GEOJSON,
              geometryCount := some 1, isPartialGeoJSON := some true,
              styleProperties := some styleProperties }
  else
    .ok (createErrorResult "Input is not a valid partial GeoJSON (standalone geometry)"
      ERROR_CODES.UNSUPPORTED_TYPE
      "The input must be a valid geometry object (Point, LineString, Polygon, MultiPoint, MultiLineString, MultiPolygon, or GeometryCollection) with proper coordinates.")

/-- `parsePartialGeoJSON`, JSON decoding of string inputs. -/
def parsePartialGeoJSONCore (ext : ExtLibs) (input : String ⊕ Js) : Except Unit ParseResult :=
  match input with
  | .inl s =>
    match jsonParse s with
    | none =>
      .ok (createErrorResult "Invalid JSON format" ERROR_CODES.INVALID_JSON
        "JSON parsing failed. Please check for syntax errors such as missing quotes, commas, or brackets.")
    | some v => parsePartialGeoJSONOnValue ext v
  | .inr v => parsePartialGeoJSONOnValue ext v

/-- `parsePartialGeoJSON` (wrapper = the source's outer `try/catch`). -/
def parsePartialGeoJSON (ext : ExtLibs) (input : String ⊕ Js) : ParseResult :=
  match parsePartialGeoJSONCore ext input with
  | .ok r => r
  | .error _ =>
    createErrorResult "Partial parsing failed" ERROR_CODES.PARSING_ERROR
      "An unexpected error occurred during partial GeoJSON parsing. Please check your input format."

/-- Display form of one entry of the strict validator's `errors` array
(`Array.prototype.join` stringification; only strings occur with the
real library). -/
def jsJoinEntry : Js → String
  | .str s => s
  | _ => ""

/-- `validationResult.errors?.join(", ") || "Unknown validation error"`:
optional chaining tolerates a nullish `errors`; calling `.join` on any
other non-array throws. -/
def joinValidationErrors (v : Js) : Except Unit String :=
  match v with
  | .null => .ok "Unknown validation error"
  | .undef => .ok "Unknown validation error"
  | .arr l =>
    let s := String.intercalate ", " (l.map jsJoinEntry)
    .ok (if s = "" then "Unknown validation error" else s)
  | _ => .error ()

/-- How `parseGeoJSON` hands `parsedData` on to `parsePartialGeoJSON`
(which re-parses strings as JSON). -/
def asPartialInput (v : Js) : String ⊕ Js :=
  match v with
  | .str s => .inl s
  | _ => .inr v

/-- The geometry-validation loop over a `FeatureCollection`'s features:
reading `.geometry` off a nullish member throws; a truthy geometry is
checked with the external validator, the first invalid one producing an
error result (`FEATURE_GEOMETRY_ERROR`, from either the `false` return
or the caught validator exception). -/
def validateFeatureGeometries (ext : ExtLibs) : List Js → Except Unit (Option ParseResult)
  | [] => .ok none
  | f :: rest =>
    match f.getE "geometry" with
    | .error e => .error e
    | .ok geom =>
    if geom.truthy then
      let gt := jsTypeString geom
      match ext.booleanValid geom with
      | .ok true => validateFeatureGeometries ext rest
      | .ok false =>
        .ok (some (createErrorResult "Invalid geometry in feature"
          ERROR_CODES.FEATURE_GEOMETRY_ERROR
          ("Feature contains a " ++ gt ++ " geometry with invalid coordinates. " ++
            getGeometryErrorSuggestion gt)))
      | .error _ =>
        .ok (some (createErrorResult "Feature geometry validation failed"
          ERROR_CODES.FEATURE_GEOMETRY_ERROR
          ("Failed to validate the " ++ gt ++ " geometry in Feature. " ++
            getGeometryErrorSuggestion gt)))
    else
      validateFeatureGeometries ext rest

/-- The `type` value of the parsed data as an optional string (the
source compares `data.type` against string literals). -/
def typeToOpt (dtypeJs : Js) : Option String :=
  match dtypeJs with
  | .str t => some t
  | _ => none

/-- The lenient/strict/partial-fallback gate at the top of
`parseGeoJSON`'s body; `some r` is an early return (a successful
partial parse or the `INVALID_GEOJSON_SCHEMA` failure). -/
def geoGate (ext : ExtLibs) (parsedData : Js) : Except Unit (Option ParseResult) :=
  if !isValidGeoJSON parsedData then
    let validationResult := ext.strictValid parsedData
    match validationResult.getE "valid" with
    | .error e => .error e
    | .ok vField =>
      if !vField.truthy then
        let partialResult := parsePartialGeoJSON ext (asPartialInput parsedData)
        if partialResult.success then .ok (some partialResult)
        else
          match joinValidationErrors (validationResult.get "errors") with
          | .error e => .error e
          | .ok errors =>
            .ok (some (createErrorResult ("Invalid GeoJSON: " ++ errors)
              ERROR_CODES.INVALID_GEOJSON_SCHEMA
              ("The input does not conform to the GeoJSON specification. Common issues: missing 'type' property, invalid type value, or incorrect structure. Errors: " ++ errors)))
      else .ok none
  else .ok none

/-- The three geometry-validation stages of `parseGeoJSON` (bare
geometry, single `Feature`, `FeatureCollection` loop); `some r` is an
early error return. -/
def geoGeomChecks (ext : ExtLibs) (parsedData : Js) (tOpt : Option String) :
    Except Unit (Option ParseResult) :=
  let bare : Option ParseResult :=
    if (tOpt.map (fun t => geometryTypes.contains t)).getD false then
      let t := tOpt.getD ""
      match ext.booleanValid parsedData with
      | .ok true => none
      | .ok false =>
        some (createErrorResult "Invalid geometry: coordinates are not valid"
          ERROR_CODES.INVALID_GEOMETRY
          ("The " ++ t ++ " geometry has invalid coordinates. " ++ getGeometryErrorSuggestion t))
      | .error _ =>
        some (createErrorResult "Geometry validation failed" ERROR_CODES.VALIDATION_ERROR
          ("Failed to validate " ++ t ++ " geometry. " ++ getGeometryErrorSuggestion t))
    else none
  match bare with
  | some r => .ok (some r)
  | none =>
    let feat : Option ParseResult :=
      if tOpt = some "Feature" then
        let geom := parsedData.get "geometry"
        if geom.truthy then
          let gt := jsTypeString geom
          match ext.booleanValid geom with
          | .ok true => none
          | .ok false =>
            some (createErrorResult "Invalid geometry in feature"
              ERROR_CODES.FEATURE_GEOMETRY_ERROR
              ("The Feature contains a " ++ gt ++ " geometry with invalid coordinates. " ++
                getGeometryErrorSuggestion gt))
          | .error _ =>
            some (createErrorResult "Feature geometry validation failed"
              ERROR_CODES.FEATURE_GEOMETRY_ERROR
              ("Failed to validate the " ++ gt ++ " geometry in Feature. " ++
                getGeometryErrorSuggestion gt))
        else none
      else none
    match feat with
    | some r => .ok (some r)
    | none =>
      if tOpt = some "FeatureCollection" then
        match Js.seqE (parsedData.get "features") with
        | .error e => .error e
        | .ok elems => validateFeatureGeometries ext elems
      else .ok none

/-- The geometry-count computation of `parseGeoJSON`. -/
def geoCount (parsedData : Js) (tOpt : Option String) : Except Unit (Option Int) :=
  if tOpt = some "FeatureCollection" then
    Js.lengthE (parsedData.get "features")
  else if tOpt = some "Feature" then
    .ok (some 1)
  else if tOpt = some "GeometryCollection" then
    Js.lengthE (parsedData.get "geometries")
  else
    .ok (some 1)

/-- `parseGeoJSON`, body on the already-JSON-decoded value (exceptions
propagate to the wrapper's catch). -/
def parseGeoJSONBody (ext : ExtLibs) (parsedData : Js) : Except Unit ParseResult :=
  match geoGate ext parsedData with
  | .error e => .error e
  | .ok (some r) => .ok r
  | .ok none =>
    match parsedData.getE "type" with
    | .error e => .error e
    | .ok dtypeJs =>
      let tOpt := typeToOpt dtypeJs
      match geoGeomChecks ext parsedData tOpt with
      | .error e => .error e
      | .ok (some r) => .ok r
      | .ok none =>
        match geoCount parsedData tOpt with
        | .error e => .error e
        | .ok geometryCount =>
          match extractAllStyleProperties parsedData with
          | .error e => .error e
          | .ok styleProperties =>
            .ok { success := true, data := some parsedData, error := none, errorCode := none,
                  errorDetails := none, type := tOpt, format := some LayerType.GEOJSON,
                  geometryCount := geometryCount, isPartialGeoJSON := none,
                  styleProperties := some styleProperties }

/-- `parseGeoJSON` on a string or an already-decoded object (wrapper =
the source's outer `try/catch`; a JSON decode failure produces
`INVALID_JSON` before the body runs). -/
def parseGeoJSON (ext : ExtLibs) (input : String ⊕ Js) : ParseResult :=
  let core : Except Unit ParseResult :=
    match input with
    | .inl s =>
      match jsonParse s with
      | none =>
        .ok (createErrorResult "Invalid JSON format" ERROR_CODES.INVALID_JSON
          "JSON parsing failed. Please check for syntax errors such as missing quotes, commas, or brackets.")
      | some v => parseGeoJSONBody ext v
    | .inr v => parseGeoJSONBody ext v
  match core with
  | .ok r => r
  | .error _ =>
    createErrorResult "Parsing failed" ERROR_CODES.PARSING_ERROR
      "An unexpected error occurred during GeoJSON parsing. Please check your input format and try again."

/-! ### WKT, Polyline and Lat/Lng parsers, and the dispatcher -/

/-- `parseWKT`, body. -/
def parseWKTCore (ext : ExtLibs) (input : String) : Except Unit ParseResult :=
  let cleanInput := trimS input
  if cleanInput = "" then
    .ok (createErrorResult "Empty WKT string" ERROR_CODES.WKT_ERROR
      "WKT string cannot be empty")
  else
    match ext.wktParse cleanInput with
    | .error e => .error e
    | .ok parsed =>
      if !parsed.truthy then
        .ok (createErrorResult "Failed to parse WKT" ERROR_CODES.WKT_ERROR
          "WKT string appears to be invalid or unsupported")
      else
        let feature : Js :=
          .obj [("type", .str "Feature"), ("geometry", parsed), ("properties", .obj [])]
        match ext.booleanValid parsed with
        | .ok false =>
          .ok (createErrorResult "Invalid geometry from WKT" ERROR_CODES.WKT_ERROR
            "WKT parsed successfully but resulted in invalid geometry")
        | .error _ =>
          .ok (createErrorResult "WKT geometry validation failed" ERROR_CODES.WKT_ERROR
            "Failed to validate geometry parsed from WKT")
        | .ok true =>
          .ok { success := true, data := some feature, error := none, errorCode := none,
                errorDetails := none, type := some "Feature", format := some LayerType.WKT,
                geometryCount := some 1, isPartialGeoJSON := none, styleProperties := some [] }

/-- `parseWKT` (wrapper = the source's outer `try/catch`). -/
def parseWKT (ext : ExtLibs) (input : String) : ParseResult :=
  match parseWKTCore ext input with
  | .ok r => r
  | .error _ =>
    createErrorResult "WKT parsing failed" ERROR_CODES.WKT_ERROR
      "Failed to parse WKT string. Please verify the WKT format."

/-- The polyline options object `{ unescape?: boolean }`; `none` in the
`unescape` field models an absent/`undefined` member. -/
structure PolylineOptions where
  unescape : Option Bool
deriving Repr

/-- The coordinate-list pre-filter regex `^[\d\s,.-]+$` of
`parsePolyline`. -/
def looksLikeCoordinateList (cs : List Char) : Bool :=
  !cs.isEmpty &&
    cs.all (fun c => c.isDigit || isJsWhitespace c || c = ',' || c = '.' || c = '-')

/-- The truth value `parsePolyline` tests with `if (options.unescape)`:
`none` for the whole options argument means the argument was omitted, so
the default `{ unescape: true }` applies; a present options object with
an absent/`undefined` `unescape` member is falsy. -/
def effectiveUnescape (options : Option PolylineOptions) : Bool :=
  (options.getD { unescape := some true }).unescape = some true

/-- The coordinate validation/conversion loop of `parsePolyline`: the
first out-of-range latitude or longitude throws (caught by the parser's
`try/catch`); in-range `[lat, lng]` pairs become GeoJSON `[lng, lat]`
positions. -/
def validatePolylineCoords : List (ℚ × ℚ) → Except Unit (List Js)
  | [] => .ok []
  | (lat, lng) :: rest =>
    if lat < -90 || lat > 90 then .error ()
    else if lng < -180 || lng > 180 then .error ()
    else
      match validatePolylineCoords rest with
      | .error e => .error e
      | .ok tail => .ok (.arr [.num lng, .num lat] :: tail)

/-- `parsePolyline`, body. -/
def parsePolylineCore (ext : ExtLibs) (input : String) (options : Option PolylineOptions) :
    Except Unit ParseResult :=
  let cleanInput := trimS input
  if cleanInput = "" then
    .ok (createErrorResult "Empty polyline string" ERROR_CODES.POLYLINE_ERROR
      "Polyline string cannot be empty")
  else if looksLikeCoordinateList cleanInput.toList then
    .ok (createErrorResult "Input appears to be coordinate list, not encoded polyline"
      ERROR_CODES.POLYLINE_ERROR "Polyline strings should be encoded, not raw coordinates")
  else
    match (if effectiveUnescape options then ext.decodeURIFn cleanInput else .ok cleanInput) with
    | .error e => .error e
    | .ok cleanInput2 =>
      match ext.polylineDecode cleanInput2 with
      | .error e => .error e
      | .ok coordinates =>
        if coordinates.isEmpty then
          .ok (createErrorResult "Failed to decode polyline" ERROR_CODES.POLYLINE_ERROR
            "Polyline string appears to be invalid or corrupted")
        else
          match validatePolylineCoords coordinates with
          | .error e => .error e
          | .ok validatedCoordinates =>
            let lineString : Js :=
              .obj [("type", .str "Feature"),
                    ("geometry", .obj [("type", .str "LineString"),
                                       ("coordinates", .arr validatedCoordinates)]),
                    ("properties", .obj [])]
            .ok { success := true, data := some lineString, error := none, errorCode := none,
                  errorDetails := none, type := some "Feature",
                  format := some LayerType.POLYLINE, geometryCount := some 1,
                  isPartialGeoJSON := none, styleProperties := some [] }

/-- `parsePolyline` (wrapper = the source's outer `try/catch`). -/
def parsePolyline (ext : ExtLibs) (input : String) (options : Option PolylineOptions) :
    ParseResult :=
  match parsePolylineCore ext input options with
  | .ok r => r
  | .error _ =>
    createErrorResult "Polyline parsing failed" ERROR_CODES.POLYLINE_ERROR
      "Failed to parse encoded polyline string. Please verify the polyline format."

/-- The pair-consumption loop of `parseLatLngList`: numbers are taken in
consecutive `(lat, lng)` pairs, range-checked, and converted to GeoJSON
`[lng, lat]`; the first failure returns that error result directly (an
`Except` error here is the early `return`, not a thrown exception). -/
def processLatLngPairs : List String → Except ParseResult (List (List ℚ))
  | [] => .ok []
  | [_] => .ok []
  | a :: b :: rest =>
    match parseFloatQ a, parseFloatQ b with
    | some lat, some lng =>
      if lat < -90 || lat > 90 then
        .error (createErrorResult "Invalid latitude value" ERROR_CODES.LATLNG_LIST_ERROR
          "Latitude must be between -90 and 90.")
      else if lng < -180 || lng > 180 then
        .error (createErrorResult "Invalid longitude value" ERROR_CODES.LATLNG_LIST_ERROR
          "Longitude must be between -180 and 180.")
      else
        match processLatLngPairs rest with
        | .error r => .error r
        | .ok tail => .ok ([lng, lat] :: tail)
    | _, _ =>
      .error (createErrorResult "Invalid coordinate values" ERROR_CODES.LATLNG_LIST_ERROR
        "Coordinate values must be valid numbers.")

/-- Build the `Point` feature list of `parseLatLngList` (`index`
property is 1-based input order). -/
def latLngFeatures (coordinates : List (List ℚ)) : List Js :=
  coordinates.enum.map fun p =>
    .obj [("type", .str "Feature"),
          ("geometry", .obj [("type", .str "Point"),
                             ("coordinates", .arr (p.2.map Js.num))]),
          ("properties", .obj [("index", .num ((p.1 : ℚ) + 1))])]

/-- `parseLatLngList` (nothing in its body can throw, so the source's
outer `try/catch` is invisible here). -/
def parseLatLngList (input : String) : ParseResult :=
  let cleanInput := trimS input
  if cleanInput = "" then
    createErrorResult "Empty lat/lng list" ERROR_CODES.LATLNG_LIST_ERROR
      "Lat/lng list cannot be empty"
  else
    let numbers := extractNumberTokens cleanInput
    if numbers.isEmpty then
      createErrorResult "No valid numbers found" ERROR_CODES.LATLNG_LIST_ERROR
        "Could not find any valid coordinate numbers in the input"
    else if numbers.length % 2 ≠ 0 then
      createErrorResult "Odd number of coordinates" ERROR_CODES.LATLNG_LIST_ERROR
        "Coordinates must come in pairs (latitude, longitude)"
    else
      match processLatLngPairs numbers with
      | .error r => r
      | .ok coordinates =>
        if coordinates.isEmpty then
          createErrorResult "No valid coordinates found" ERROR_CODES.LATLNG_LIST_ERROR
            "No valid coordinate pairs could be parsed from the input"
        else
          { success := true,
            data := some (.obj [("type", .str "FeatureCollection"),
                                ("features", .arr (latLngFeatures coordinates))]),
            error := none, errorCode := none, errorDetails := none,
            type := some "FeatureCollection", format := some LayerType.COORDINATES,
            geometryCount := some (coordinates.length : Int), isPartialGeoJSON := none,
            styleProperties := some [] }

/-- The dispatcher options object `{ unescape?: boolean }`. -/
structure MultiFormatOptions where
  unescape : Option Bool
deriving Repr

/-- The ordered-fallback loop of `parseMultiFormat`: run each parser in
list order, return the first success unmodified, otherwise accumulate
one diagnostic line per format. -/
def parseMultiFormatLoop : List (String × (Unit → ParseResult)) → List String → ParseResult
  | [], errors =>
    createErrorResult "Unable to parse input" ERROR_CODES.AUTO_DETECTION_ERROR
      ("Unable to parse input as any supported format. Tried: " ++
        String.intercalate "; " errors)
  | (name, p) :: rest, errors =>
    let result := p ()
    if result.success then result
    else parseMultiFormatLoop rest (errors ++ [name ++ ": " ++ result.error.getD "undefined"])

/-- `parseMultiFormat`: fixed priority order GeoJSON, WKT, Polyline,
Lat/Lng List.  Note the polyline attempt receives the explicit options
object `{ unescape: options?.unescape }`. -/
def parseMultiFormat (ext : ExtLibs) (input : String) (options : Option MultiFormatOptions) :
    ParseResult :=
  let cleanInput := trimS input
  if cleanInput = "" then
    createErrorResult "Empty input" ERROR_CODES.AUTO_DETECTION_ERROR "Input cannot be empty"
  else
    parseMultiFormatLoop
      [("GeoJSON", fun _ => parseGeoJSON ext (.inl cleanInput)),
       ("WKT", fun _ => parseWKT ext cleanInput),
       ("Polyline", fun _ =>
         parsePolyline ext cleanInput (some { unescape := options.bind (fun o => o.unescape) })),
       ("Lat/Lng List", fun _ => parseLatLngList cleanInput)]
      []

/-! ### Concrete models of the external collaborators

Used only to instantiate the universally-quantified theorems at closed
witnesses/counterexamples; none of the repository's own logic lives
here. -/

/-- A GeoJSON position: 2 or 3 numbers. -/
def isPosition : Js → Bool
  | .arr [.num _, .num _] => true
  | .arr [.num _, .num _, .num _] => true
  | _ => false

/-- Modelled from the spec: the external Geometry Validator
(`@turf/boolean-valid`), §6 — "a single predicate
`isValidGeometry(geometry) -> boolean`, expected to reject
self-intersecting polygons, wrong-arity coordinate tuples, and
non-finite numbers, at minimum."  Arity/shape checks are modelled;
self-intersection is not (no theorem below depends on it); values
without a recognized geometry `type` make the validator throw. -/
def booleanValidModel (g : Js) : Except Unit Bool :=
  let lineCoords : Js → Bool := fun c =>
    match c with
    | .arr l => decide (l.length ≥ 2) && l.all isPosition
    | _ => false
  let ringCoords : Js → Bool := fun c =>
    match c with
    | .arr l => decide (l.length ≥ 4) && l.all isPosition
    | _ => false
  match g.get "type" with
  | .str "Point" => .ok (isPosition (g.get "coordinates"))
  | .str "MultiPoint" =>
    .ok (match g.get "coordinates" with
         | .arr l => l.all isPosition
         | _ => false)
  | .str "LineString" => .ok (lineCoords (g.get "coordinates"))
  | .str "MultiLineString" =>
    .ok (match g.get "coordinates" with
         | .arr l => l.all lineCoords
         | _ => false)
  | .str "Polygon" =>
    .ok (match g.get "coordinates" with
         | .arr l => l.all ringCoords
         | _ => false)
  | .str "MultiPolygon" =>
    .ok (match g.get "coordinates" with
         | .arr l =>
           l.all (fun p =>
             match p with
             | .arr rings => rings.all ringCoords
             | _ => false)
         | _ => false)
  | _ => .error ()

/-- Modelled from the spec: the strict validator (`geojson-validation`'s
`valid`) returns a primitive boolean.  `parseGeoJSON` then reads
`validationResult.valid`, which is `undefined` on every boolean, so the
particular boolean returned is immaterial to the translated code. -/
def strictValidModel (_data : Js) : Js := .bool false

/-- Modelled from the spec: the external `wkt` codec (`wkt.parse`),
§4.2 — case-insensitive keyword matching; input without a leading WKT
keyword yields a falsy (`null`) result.  The successful-parse half of
the codec is not modelled (no theorem depends on it; every concrete
input used below carries no WKT keyword), so the model returns `null`
for every input. -/
def wktParseModel (_s : String) : Except Unit Js := .ok .null

/-- Characters `decodeURI` leaves percent-encoded (the `encodeURI`
reserved set). -/
def uriReserved : List Char := [';', '/', '?', ':', '@', '&', '=', '+', '$', ',', '#']

/-- Modelled from the spec: the `decodeURI` builtin, §4.4 —
"percent-decode escape sequences".  Single-byte (ASCII) sequences are
decoded unless reserved; malformed escapes and multi-byte UTF-8
sequences throw (`URIError`); fuel `≥` input length always suffices. -/
def decodeURIList : Nat → List Char → Except Unit (List Char)
  | _, [] => .ok []
  | 0, _ :: _ => .error ()
  | Nat.succ fuel, c :: rest =>
    if c = '%' then
      match rest with
      | h1 :: h2 :: rest2 =>
        match hexVal h1, hexVal h2 with
        | some a, some b =>
          let n := a * 16 + b
          if n ≥ 0x80 then .error ()
          else
            let ch := Char.ofNat n
            if uriReserved.contains ch then do
              let tail ← decodeURIList fuel rest2
              .ok ('%' :: h1 :: h2 :: tail)
            else do
              let tail ← decodeURIList fuel rest2
              .ok (ch :: tail)
        | _, _ => .error ()
      | _ => .error ()
    else do
      let tail ← decodeURIList fuel rest
      .ok (c :: tail)

/-- `decodeURI` on strings. -/
def decodeURIModel (s : String) : Except Unit String := do
  let cs ← decodeURIList s.toList.length s.toList
  .ok (String.mk cs)

/-- One base64-ish varint chunk group of the polyline encoding:
accumulate 5-bit groups (character code minus 63) little-endian until a
group below 0x20; reading past the end of the input terminates the
group, as the JS `NaN` arithmetic does. -/
def polyChunk : Nat → List Char → Int → Nat → (Int × List Char)
  | 0, cs, acc, _ => (acc, cs)
  | Nat.succ _, [], acc, _ => (acc, [])
  | Nat.succ fuel, c :: rest, acc, shift =>
    let b : Int := (c.toNat : Int) - 63
    let low5 : Int := ((b % 32) + 32) % 32
    let acc2 := acc + low5 * pow2Z shift
    if b ≥ 32 then polyChunk fuel rest acc2 (shift + 5) else (acc2, rest)

/-- Zigzag sign decoding: `result & 1 ? ~(result >> 1) : result >> 1`. -/
def zigzagDecode (r : Int) : Int := if r % 2 = 1 then -(r / 2) - 1 else r / 2

/-- The delta-accumulation loop of the polyline decoder, at precision
factor `1e5`. -/
def polyDecodeLoop : Nat → List Char → Int → Int → List (ℚ × ℚ)
  | 0, _, _, _ => []
  | Nat.succ _, [], _, _ => []
  | Nat.succ fuel, cs, lat, lng =>
    let step1 := polyChunk cs.length cs 0 0
    let dlat := zigzagDecode step1.1
    let step2 := polyChunk step1.2.length step1.2 0 0
    let dlng := zigzagDecode step2.1
    let lat2 := lat + dlat
    let lng2 := lng + dlng
    ((lat2 : ℚ) / 100000, (lng2 : ℚ) / 100000) :: polyDecodeLoop fuel step2.2 lat2 lng2

/-- Modelled from the spec: the external Polyline Codec
(`@mapbox/polyline`'s `decode`), §6 — "`decode(text) -> sequence of
[lat,lng] pairs` implementing the standard signed-varint delta polyline
algorithm at precision 1e5".  (The 32-bit wrap of JS bitwise arithmetic
is not modelled; it is unreachable for the short inputs used below.) -/
def polylineDecodeModel (s : String) : Except Unit (List (ℚ × ℚ)) :=
  .ok (polyDecodeLoop s.toList.length s.toList 0 0)

/-- The bundle of modelled externals used by closed
witnesses/counterexamples. -/
def specExt : ExtLibs :=
  { booleanValid := booleanValidModel, strictValid := strictValidModel,
    wktParse := wktParseModel, decodeURIFn := decodeURIModel,
    polylineDecode := polylineDecodeModel }

/-! ### The Line-Progress Clipper (`lineClipping.ts`) -/

/-- A coordinate position of the clipper's typed GeoJSON world. -/
abbrev Pos := List ℚ

/-- The geometry of a clipped feature: the clipper distinguishes only
`LineString` and `MultiLineString`; everything else passes through
untouched and is carried opaquely. -/
inductive GGeom where
  | lineString : List Pos → GGeom
  | multiLineString : List (List Pos) → GGeom
  | otherGeom : String → Js → GGeom
deriving Repr

/-- A typed GeoJSON feature as the clipper sees it (`geometry = none`
models a null/absent geometry; `properties` carried opaquely). -/
structure GFeature where
  properties : Js
  geometry : Option GGeom
deriving Repr

/-- A typed FeatureCollection. -/
structure GFC where
  features : List GFeature
deriving Repr

/-- `ClipResult`. -/
structure ClipResult where
  success : Bool
  data : Option GFC
  error : Option String
deriving Repr

/-- `feature.geometry.coordinates` read off a feature expected to carry
a `LineString` (all call sites guarantee this; turf's `lineSliceAlong`
always returns a `LineString` feature, other shapes are modelled with
empty coordinates). -/
def lsCoords (f : GFeature) : List Pos :=
  match f.geometry with
  | some (.lineString c) => c
  | _ => []

/-- The external turf functions consumed by the clipper: `length`
(arc length in kilometers) and `lineSliceAlong`; an `Except` error
models a thrown exception. -/
structure Turf where
  len : GFeature → Except Unit ℚ
  sliceAlong : GFeature → ℚ → ℚ → Except Unit GFeature

/-- `clipLineString`: at 0% a `≥ 2`-point line degenerates to its start
point repeated twice; otherwise slice from 0 to
`totalLength * p / 100`, falling back to the original feature when
slicing throws.  A `length` exception propagates (it is outside the
inner `try`). -/
def clipLineString (t : Turf) (feature : GFeature) (progressPercent : ℚ) :
    Except Unit GFeature :=
  if progressPercent = 0 then
    let coords := lsCoords feature
    if coords.length < 2 then
      .ok feature
    else
      .ok { feature with
            geometry := some (.lineString [coords.headD [], coords.headD []]) }
  else
    match t.len feature with
    | .error e => .error e
    | .ok totalLength =>
      let targetLength := totalLength * progressPercent / 100
      match t.sliceAlong feature 0 targetLength with
      | .ok sliced => .ok sliced
      | .error _ => .ok feature

/-- `clipMultiLineString`: decompose into per-component `LineString`
features (sharing the parent's `properties`), clip each with the same
percentage, reassemble in order. -/
def clipMultiLineString (t : Turf) (feature : GFeature) (progressPercent : ℚ) :
    Except Unit GFeature :=
  let parts : List (List Pos) :=
    match feature.geometry with
    | some (.multiLineString cs) => cs
    | _ => []
  let lineStrings : List GFeature :=
    parts.map fun coords => { properties := feature.properties,
                              geometry := some (.lineString coords) }
  match lineStrings.mapM (fun line => clipLineString t line progressPercent) with
  | .error e => .error e
  | .ok clippedLines =>
    .ok { feature with
          geometry := some (.multiLineString (clippedLines.map lsCoords)) }

/-- The per-feature dispatch of `clipLinesByProgress`'s `map` callback. -/
def clipFeature (t : Turf) (progressPercent : ℚ) (feature : GFeature) :
    Except Unit GFeature :=
  match feature.geometry with
  | none => .ok feature
  | some (.otherGeom _ _) => .ok feature
  | some (.lineString _) => clipLineString t feature progressPercent
  | some (.multiLineString _) => clipMultiLineString t feature progressPercent

/-- `clipLinesByProgress`: reject out-of-range percentages; return the
collection itself at 100%; otherwise map the per-feature clip, catching
any exception into a failure result. -/
def clipLinesByProgress (t : Turf) (featureCollection : GFC) (progressPercent : ℚ) :
    ClipResult :=
  if progressPercent < 0 || progressPercent > 100 then
    { success := false, data := none, error := some "Progress must be between 0 and 100" }
  else if progressPercent = 100 then
    { success := true, data := some featureCollection, error := none }
  else
    match featureCollection.features.mapM (clipFeature t progressPercent) with
    | .ok clippedFeatures =>
      { success := true, data := some { features := clippedFeatures }, error := none }
    | .error _ =>
      { success := false, data := none, error := some "Unknown error clipping lines" }

/-- A trivial instantiation of the turf collaborators, used only to
close witnesses whose theorems hold for every instantiation. -/
def trivTurf : Turf :=
  { len := fun _ => .ok 0, sliceAlong := fun f _ _ => .ok f }

/-! ### Generic helper lemmas -/

theorem exceptOkBind {α β : Type} (a : α) (f : α → Except Unit β) :
    (Except.ok a >>= f) = f a := rfl

theorem exceptErrorBind {α β : Type} (e : Unit) (f : α → Except Unit β) :
    ((Except.error e : Except Unit α) >>= f) = .error e := rfl

theorem mapM_ok_of_forall_ok {α β : Type} (f : α → Except Unit β) (g : α → β)
    (h : ∀ a, f a = .ok (g a)) : ∀ (l : List α), l.mapM f = .ok (l.map g) := by
  intro l
  induction l with
  | nil => rfl
  | cons a t ih =>
    rw [List.mapM_cons, h a, ih]
    rfl

theorem mapM_ok_pointwise {α β : Type} (f : α → Except Unit β) :
    ∀ (l : List α) (out : List β), l.mapM f = .ok out →
      out.length = l.length ∧
      ∀ (i : Nat) (a : α), l[i]? = some a → ∃ b, f a = .ok b ∧ out[i]? = some b := by
  intro l
  induction l with
  | nil =>
    intro out h
    have hout : out = [] := by
      have : (Except.ok [] : Except Unit (List β)) = .ok out := h ▸ rfl
      cases this
      rfl
    subst hout
    refine ⟨rfl, ?_⟩
    intro i a ha
    simp at ha
  | cons hd tl ih =>
    intro out h
    rw [List.mapM_cons] at h
    cases hf : f hd with
    | error e => rw [hf, exceptErrorBind] at h; cases h
    | ok b =>
      rw [hf, exceptOkBind] at h
      cases hm : tl.mapM f with
      | error e => rw [hm, exceptErrorBind] at h; cases h
      | ok bs =>
        rw [hm, exceptOkBind] at h
        have hout : out = b :: bs := by cases h; rfl
        subst hout
        obtain ⟨hlen, hpt⟩ := ih bs hm
        refine ⟨by simp [hlen], ?_⟩
        intro i a ha
        cases i with
        | zero =>
          rw [List.getElem?_cons_zero] at ha
          cases ha
          refine ⟨b, hf, ?_⟩
          rw [List.getElem?_cons_zero]
        | succ j =>
          simp only [List.getElem?_cons_succ] at ha ⊢
          exact hpt j a ha


/-! ### Claims about the Line-Progress Clipper -/

theorem mapM_ok_of_forall_mem {α β : Type} (f : α → Except Unit β) (g : α → β) :
    ∀ (l : List α), (∀ a ∈ l, f a = .ok (g a)) → l.mapM f = .ok (l.map g) := by
  intro l
  induction l with
  | nil => intro _; rfl
  | cons a t ih =>
    intro h
    rw [List.mapM_cons, h a (List.mem_cons_self a t),
        ih (fun b hb => h b (List.mem_cons_of_mem a hb))]
    rfl

def clip0Feature (f : GFeature) : GFeature :=
  match f.geometry with
  | some (.lineString coords) =>
    if coords.length < 2 then f
    else { f with geometry := some (.lineString [coords.headD [], coords.headD []]) }
  | some (.multiLineString parts) =>
    { f with geometry := some (.multiLineString (parts.map fun coords =>
        if coords.length < 2 then coords else [coords.headD [], coords.headD []])) }
  | _ => f

theorem clipLineString_zero (t : Turf) (props : Js) (coords : List Pos) :
    clipLineString t { properties := props, geometry := some (.lineString coords) } 0 =
      .ok (clip0Feature { properties := props, geometry := some (.lineString coords) }) := by
  unfold clipLineString clip0Feature lsCoords
  rw [if_pos rfl]
  dsimp only
  split
  · rfl
  · rfl

theorem clipFeature_zero (t : Turf) (f : GFeature) :
    clipFeature t 0 f = .ok (clip0Feature f) := by
  cases f with
  | mk props geom =>
    cases geom with
    | none => rfl
    | some g =>
      cases g with
      | otherGeom tag payload => rfl
      | lineString coords => exact clipLineString_zero t props coords
      | multiLineString parts =>
        show clipMultiLineString t _ 0 = _
        have hfun : (lsCoords ∘ clip0Feature ∘ fun coords =>
            ({ properties := props, geometry := some (.lineString coords) } : GFeature)) =
            fun coords => if coords.length < 2 then coords
              else [coords.headD [], coords.headD []] := by
          funext coords
          simp only [Function.comp]
          unfold clip0Feature
          dsimp only
          split
          · rfl
          · rfl
        unfold clipMultiLineString
        dsimp only
        rw [mapM_ok_of_forall_mem
             (fun line => clipLineString t line 0)
             clip0Feature
             _
             (by
                intro a ha
                simp only [List.mem_map] at ha
                obtain ⟨coords, _, rfl⟩ := ha
                exact clipLineString_zero t props coords)]
        simp only [List.map_map]
        rw [hfun]
        rfl

/-- C3: for every turf instantiation and every FeatureCollection `fc`,
`clipLinesByProgress fc 100` succeeds and returns the identical
collection unmodified, and `clipLinesByProgress fc 0` succeeds and
replaces every `LineString` feature with at least 2 points by a
degenerate 2-point `LineString` whose two coordinates both equal the
original first coordinate, while `LineString` features with fewer than
2 points pass through unchanged. -/
theorem clipLinesByProgress_boundary (t : Turf) (fc : GFC) :
    clipLinesByProgress t fc 100 = { success := true, data := some fc, error := none } ∧
    clipLinesByProgress t fc 0 =
      { success := true, data := some { features := fc.features.map clip0Feature },
        error := none } ∧
    ∀ (i : Nat) (f : GFeature), fc.features[i]? = some f →
      ∀ coords, f.geometry = some (.lineString coords) →
        (fc.features.map clip0Feature)[i]? =
          some (if coords.length < 2 then f
                else { f with geometry := some (.lineString [coords.headD [], coords.headD []]) }) := by
  refine ⟨?_, ?_, ?_⟩
  · unfold clipLinesByProgress
    rw [if_neg (by norm_num), if_pos rfl]
  · unfold clipLinesByProgress
    rw [if_neg (by norm_num), if_neg (by norm_num),
        mapM_ok_of_forall_ok (clipFeature t 0) clip0Feature (clipFeature_zero t)]
  · intro i f hf coords hg
    rw [List.getElem?_map, hf]
    dsimp only [Option.map]
    congr 1
    unfold clip0Feature
    rw [hg]

/-- C4: for every turf instantiation, FeatureCollection and percentage
`p` with `p < 0` or `p > 100`, `clipLinesByProgress fc p` returns
`success = false` with an error message and no data. -/
theorem clipLinesByProgress_range (t : Turf) (fc : GFC) (p : ℚ) (h : p < 0 ∨ p > 100) :
    clipLinesByProgress t fc p =
      { success := false, data := none, error := some "Progress must be between 0 and 100" } := by
  unfold clipLinesByProgress
  have hc : (decide (p < 0) || decide (p > 100)) = true := by
    rcases h with h | h
    · simp [h]
    · simp [h]
  rw [if_pos hc]

def lineFeatureEx : GFeature :=
  { properties := .obj [],
    geometry := some (.lineString [[0, 0], [1, 1], [2, 2], [3, 3]]) }

def fcEx : GFC := { features := [lineFeatureEx] }

theorem clipLinesByProgress_boundary_witness :
    clipLinesByProgress trivTurf fcEx 100 = { success := true, data := some fcEx, error := none } ∧
    (fcEx.features.map clip0Feature)[0]? =
      some { properties := Js.obj [], geometry := some (.lineString [[0, 0], [0, 0]]) } := by
  have h := clipLinesByProgress_boundary trivTurf fcEx
  refine ⟨h.1, ?_⟩
  rw [h.2.2 0 lineFeatureEx rfl [[0, 0], [1, 1], [2, 2], [3, 3]] rfl]
  rfl

theorem clipLinesByProgress_range_witness :
    clipLinesByProgress trivTurf fcEx (-1) =
      { success := false, data := none, error := some "Progress must be between 0 and 100" } ∧
    clipLinesByProgress trivTurf fcEx 101 =
      { success := false, data := none, error := some "Progress must be between 0 and 100" } :=
  ⟨clipLinesByProgress_range trivTurf fcEx (-1) (Or.inl (by norm_num)),
   clipLinesByProgress_range trivTurf fcEx 101 (Or.inr (by norm_num))⟩

/-- C5: for `0 ≤ p < 100`, whenever the clipper succeeds, every
`MultiLineString` feature is decomposed into its component
`LineString`s (carrying the parent properties), each component clipped
independently by `clipLineString` at the same percentage `p` (hence
against that component's own arc length), and the results reassembled
into a `MultiLineString` preserving per-component order; every feature
whose geometry is not `LineString`/`MultiLineString` passes through
unchanged. -/
theorem clipLinesByProgress_multiline (t : Turf) (fc : GFC) (p : ℚ)
    (h0 : 0 ≤ p) (h1 : p < 100)
    (l : List GFeature)
    (hdata : (clipLinesByProgress t fc p).data = some { features := l }) :
    (clipLinesByProgress t fc p).success = true ∧
    l.length = fc.features.length ∧
    ∀ (i : Nat) (f : GFeature), fc.features[i]? = some f →
      (∀ parts, f.geometry = some (.multiLineString parts) →
        ∃ clipped,
          (parts.map fun coords =>
            ({ properties := f.properties, geometry := some (.lineString coords) } : GFeature)).mapM
              (fun line => clipLineString t line p) = .ok clipped ∧
          l[i]? = some { f with geometry := some (.multiLineString (clipped.map lsCoords)) }) ∧
      ((f.geometry = none ∨ ∃ tag payload, f.geometry = some (.otherGeom tag payload)) →
        l[i]? = some f) := by
  have hcond : ¬ ((decide (p < 0) || decide (p > 100)) = true) := by
    simp only [Bool.or_eq_true, decide_eq_true_eq]
    push_neg
    exact ⟨h0, le_of_lt h1⟩
  have hne : ¬ p = 100 := ne_of_lt h1
  unfold clipLinesByProgress at hdata ⊢
  rw [if_neg hcond, if_neg hne] at hdata ⊢
  cases hm : fc.features.mapM (clipFeature t p) with
  | error e => rw [hm] at hdata; cases hdata
  | ok out =>
    rw [hm] at hdata
    have hout : out = l := by
      have : some ({ features := out } : GFC) = some { features := l } := hdata
      cases this
      rfl
    subst hout
    refine ⟨rfl, ?_, ?_⟩
    · exact (mapM_ok_pointwise (clipFeature t p) fc.features out hm).1
    · intro i f hf
      obtain ⟨b, hb, hl⟩ := (mapM_ok_pointwise (clipFeature t p) fc.features out hm).2 i f hf
      constructor
      · intro parts hg
        unfold clipFeature at hb
        rw [hg] at hb
        unfold clipMultiLineString at hb
        rw [hg] at hb
        dsimp only at hb
        cases hmm : (parts.map fun coords =>
            ({ properties := f.properties, geometry := some (.lineString coords) } : GFeature)).mapM
              (fun line => clipLineString t line p) with
        | error e => rw [hmm] at hb; cases hb
        | ok clipped =>
          rw [hmm] at hb
          refine ⟨clipped, rfl, ?_⟩
          have hbv : b = { f with geometry := some (.multiLineString (clipped.map lsCoords)) } := by
            cases hb; rfl
          rw [hl, hbv]
      · intro hother
        rcases hother with hnone | ⟨tag, payload, hother⟩
        · unfold clipFeature at hb
          rw [hnone] at hb
          cases hb
          exact hl
        · unfold clipFeature at hb
          rw [hother] at hb
          cases hb
          exact hl

def mlsFeatureEx : GFeature :=
  { properties := .obj [],
    geometry := some (.multiLineString [[[0, 0], [1, 1]], [[2, 2], [3, 3]]]) }

def fcMLSEx : GFC := { features := [mlsFeatureEx] }

theorem clipLinesByProgress_multiline_witness :
    (clipLinesByProgress trivTurf fcMLSEx 50).success = true ∧
    ∃ clipped,
      (([[[0, 0], [1, 1]], [[2, 2], [3, 3]]] : List (List Pos)).map fun coords =>
        ({ properties := mlsFeatureEx.properties,
           geometry := some (.lineString coords) } : GFeature)).mapM
          (fun line => clipLineString trivTurf line 50) = .ok clipped ∧
      ([mlsFeatureEx] : List GFeature)[0]? =
        some { mlsFeatureEx with
               geometry := some (.multiLineString (clipped.map lsCoords)) } := by
  have h := clipLinesByProgress_multiline trivTurf fcMLSEx 50 (by norm_num) (by norm_num)
    [mlsFeatureEx] rfl
  exact ⟨h.1, (h.2.2 0 mlsFeatureEx rfl).1 [[[0, 0], [1, 1]], [[2, 2], [3, 3]]] rfl⟩

/-! ### Claims about the dispatcher and the polyline options -/

/-- C2: `parseMultiFormat` tries the parsers in the fixed priority
order GeoJSON, WKT, Polyline, Lat/Lng List and returns the first
successful `ParseResult` unmodified (for every instantiation of the
external libraries); in particular, on the input `"40.7484,-73.9857"`
it returns the successful Lat/Lng List result with
`format = COORDINATES`, GeoJSON, WKT and Polyline all having failed
first. -/
theorem parseMultiFormat_priority (ext : ExtLibs) (input : String)
    (options : Option MultiFormatOptions) (hne : ¬ trimS input = "") :
    ((parseGeoJSON ext (.inl (trimS input))).success = true →
      parseMultiFormat ext input options = parseGeoJSON ext (.inl (trimS input))) ∧
    ((parseGeoJSON ext (.inl (trimS input))).success = false →
      (parseWKT ext (trimS input)).success = true →
      parseMultiFormat ext input options = parseWKT ext (trimS input)) ∧
    ((parseGeoJSON ext (.inl (trimS input))).success = false →
      (parseWKT ext (trimS input)).success = false →
      (parsePolyline ext (trimS input)
        (some { unescape := options.bind (fun o => o.unescape) })).success = true →
      parseMultiFormat ext input options =
        parsePolyline ext (trimS input)
          (some { unescape := options.bind (fun o => o.unescape) })) ∧
    ((parseGeoJSON ext (.inl (trimS input))).success = false →
      (parseWKT ext (trimS input)).success = false →
      (parsePolyline ext (trimS input)
        (some { unescape := options.bind (fun o => o.unescape) })).success = false →
      (parseLatLngList (trimS input)).success = true →
      parseMultiFormat ext input options = parseLatLngList (trimS input)) ∧
    parseMultiFormat specExt "40.7484,-73.9857" none = parseLatLngList "40.7484,-73.9857" ∧
    (parseLatLngList "40.7484,-73.9857").success = true ∧
    (parseLatLngList "40.7484,-73.9857").format = some LayerType.COORDINATES := by
  refine ⟨?_, ?_, ?_, ?_, by with_unfolding_all rfl, by with_unfolding_all rfl, by with_unfolding_all rfl⟩
  · intro h1
    unfold parseMultiFormat
    rw [if_neg hne]
    simp only [parseMultiFormatLoop, h1]
    simp
  · intro h1 h2
    unfold parseMultiFormat
    rw [if_neg hne]
    simp only [parseMultiFormatLoop, h1, h2]
    simp
  · intro h1 h2 h3
    unfold parseMultiFormat
    rw [if_neg hne]
    simp only [parseMultiFormatLoop, h1, h2, h3]
    simp
  · intro h1 h2 h3 h4
    unfold parseMultiFormat
    rw [if_neg hne]
    simp only [parseMultiFormatLoop, h1, h2, h3, h4]
    simp

theorem parseMultiFormat_priority_witness :
    parseMultiFormat specExt "40.7484,-73.9857" none =
      parseLatLngList (trimS "40.7484,-73.9857") ∧
    (parseLatLngList "40.7484,-73.9857").format = some LayerType.COORDINATES := by
  have h := parseMultiFormat_priority specExt "40.7484,-73.9857" none (by decide)
  exact ⟨h.2.2.2.1 (by with_unfolding_all rfl) (by with_unfolding_all rfl)
    (by with_unfolding_all rfl) (by with_unfolding_all rfl), h.2.2.2.2.2.2⟩

/-- C7: evaluation of the code at the failing input.  The `unescape`
default of `parsePolyline` is `true` only when the options argument is
omitted entirely; `parseMultiFormat` always passes the explicit object
`{ unescape: options?.unescape }`, which is `{ unescape: undefined }`
(falsy) when the dispatcher is invoked without options — so the
unescape pre-processing is NOT applied through the dispatcher.  On
`"%5Fp~iF~ps|U"` (a percent-escaped encoding of the polyline
`"_p~iF~ps|U"`), a direct `parsePolyline` call without options succeeds
(percent-decoding applies), while the dispatcher without options fails
altogether (the raw decode yields an out-of-range latitude and every
other parser rejects the input); passing `unescape: true` explicitly
through the dispatcher succeeds again. -/
theorem parsePolyline_unescape_default_not_threaded :
    effectiveUnescape none = true ∧
    effectiveUnescape
      (some { unescape := (none : Option MultiFormatOptions).bind (fun o => o.unescape) }) =
        false ∧
    (parsePolyline specExt "%5Fp~iF~ps|U" none).success = true ∧
    (parseMultiFormat specExt "%5Fp~iF~ps|U" none).success = false ∧
    (parseMultiFormat specExt "%5Fp~iF~ps|U"
      (some { unescape := some true })).success = true := by
  refine ⟨rfl, rfl, ?_, ?_, ?_⟩
  · with_unfolding_all rfl
  · with_unfolding_all rfl
  · with_unfolding_all rfl

/-! ### Claims about the GeoJSON parsers -/
theorem createErrorResult_success (a b c : String) :
    (createErrorResult a b c).success = false := rfl

theorem parsePartialGeoJSONOnValue_ok_success {ext : ExtLibs} {v : Js} {r : ParseResult}
    (h : parsePartialGeoJSONOnValue ext v = .ok r) (hs : r.success = true) :
    isGeometryObject v = true ∧
    r.data = some (.obj [("type", .str "Feature"), ("geometry", v), ("properties", .obj [])]) ∧
    r.isPartialGeoJSON = some true := by
  unfold parsePartialGeoJSONOnValue at h
  by_cases hg : isGeometryObject v = true
  · rw [if_pos hg] at h
    cases hb : ext.booleanValid v with
    | error e =>
      rw [hb] at h
      cases h
      cases hs
    | ok b =>
      cases b with
      | false => rw [hb] at h; cases h; cases hs
      | true =>
        rw [hb] at h
        dsimp only at h
        cases hst : extractAllStyleProperties
            (.obj [("type", .str "Feature"), ("geometry", v), ("properties", .obj [])]) with
        | error e => rw [hst] at h; cases h
        | ok styles =>
          rw [hst] at h
          cases h
          exact ⟨hg, rfl, rfl⟩
  · rw [if_neg hg] at h
    cases h
    cases hs

/-- C8 (amended): for every bare geometry object input that parses
successfully through the partial-GeoJSON parser (the fallback), the
returned data wraps the geometry in a synthetic `Feature` with empty
properties and the result has `isPartialGeoJSON = true`; a non-geometry
object reaching the partial parser is rejected with
`UNSUPPORTED_TYPE`.  (The main GeoJSON parser itself accepts a bare
geometry that has a `coordinates` field directly, without wrapping it
and without setting the flag — see the counterexample.) -/
theorem parsePartialGeoJSON_wraps (ext : ExtLibs) (input : String ⊕ Js) :
    ((parsePartialGeoJSON ext input).success = true →
      ∃ g, isGeometryObject g = true ∧
        (match input with
         | .inl s => jsonParse s = some g
         | .inr v => v = g) ∧
        (parsePartialGeoJSON ext input).data =
          some (.obj [("type", .str "Feature"), ("geometry", g), ("properties", .obj [])]) ∧
        (parsePartialGeoJSON ext input).isPartialGeoJSON = some true) ∧
    (∀ v : Js, isGeometryObject v = false →
      parsePartialGeoJSON ext (.inr v) =
        createErrorResult "Input is not a valid partial GeoJSON (standalone geometry)"
          ERROR_CODES.UNSUPPORTED_TYPE
          "The input must be a valid geometry object (Point, LineString, Polygon, MultiPoint, MultiLineString, MultiPolygon, or GeometryCollection) with proper coordinates.") := by
  constructor
  · intro hs
    cases input with
    | inl s =>
      unfold parsePartialGeoJSON at hs ⊢
      cases hcore : parsePartialGeoJSONCore ext (Sum.inl s) with
      | error e =>
        simp only [hcore] at hs
        cases hs
      | ok r =>
        simp only [hcore] at hs ⊢
        have hcore2 := hcore
        unfold parsePartialGeoJSONCore at hcore2
        dsimp only at hcore2
        cases hj : jsonParse s with
        | none =>
          rw [hj] at hcore2
          cases hcore2
          cases hs
        | some v =>
          rw [hj] at hcore2
          obtain ⟨hg, hdata, hflag⟩ := parsePartialGeoJSONOnValue_ok_success hcore2 hs
          exact ⟨v, hg, rfl, hdata, hflag⟩
    | inr v =>
      unfold parsePartialGeoJSON at hs ⊢
      cases hcore : parsePartialGeoJSONCore ext (Sum.inr v) with
      | error e =>
        simp only [hcore] at hs
        cases hs
      | ok r =>
        simp only [hcore] at hs ⊢
        have hcore2 := hcore
        unfold parsePartialGeoJSONCore at hcore2
        dsimp only at hcore2
        obtain ⟨hg, hdata, hflag⟩ := parsePartialGeoJSONOnValue_ok_success hcore2 hs
        exact ⟨v, hg, rfl, hdata, hflag⟩
  · intro v hv
    unfold parsePartialGeoJSON parsePartialGeoJSONCore parsePartialGeoJSONOnValue
    dsimp only
    rw [hv]
    rfl

def barePointInput : Js :=
  .obj [("type", .str "Point"), ("coordinates", .arr [.num 0, .num 0])]

/-- C8 counterexample: the bare geometry
`{"type":"Point","coordinates":[0,0]}` parses successfully through the
GeoJSON parser, yet the returned data is the bare geometry itself (not
wrapped in a synthetic Feature) and `isPartialGeoJSON` is left
undefined — the claim as stated over "the GeoJSON parser" is false. -/
theorem parseGeoJSON_bare_geometry_unwrapped :
    isGeometryObject barePointInput = true ∧
    (parseGeoJSON specExt (.inr barePointInput)).success = true ∧
    (parseGeoJSON specExt (.inr barePointInput)).isPartialGeoJSON = none ∧
    (parseGeoJSON specExt (.inr barePointInput)).data = some barePointInput := by
  refine ⟨rfl, ?_, ?_, ?_⟩ <;> with_unfolding_all rfl

theorem parsePartialGeoJSON_wraps_witness :
    (parsePartialGeoJSON specExt (.inr barePointInput)).isPartialGeoJSON = some true ∧
    parsePartialGeoJSON specExt (.inr (.obj [("foo", .num 1)])) =
      createErrorResult "Input is not a valid partial GeoJSON (standalone geometry)"
        ERROR_CODES.UNSUPPORTED_TYPE
        "The input must be a valid geometry object (Point, LineString, Polygon, MultiPoint, MultiLineString, MultiPolygon, or GeometryCollection) with proper coordinates." := by
  refine ⟨?_, (parsePartialGeoJSON_wraps specExt (.inr (.obj [("foo", .num 1)]))).2 _ rfl⟩
  obtain ⟨g, hg, hin, hdata, hflag⟩ :=
    (parsePartialGeoJSON_wraps specExt (.inr barePointInput)).1 (by with_unfolding_all rfl)
  exact hflag

theorem getE_of_not_nullish {f : Js} (h1 : f ≠ Js.null) (h2 : f ≠ Js.undef) (k : String) :
    f.getE k = .ok (f.get k) := by
  cases f with
  | null => exact absurd rfl h1
  | undef => exact absurd rfl h2
  | bool b => rfl
  | num q => rfl
  | str s => rfl
  | arr l => rfl
  | obj fs => rfl

theorem validateFeatureGeometries_skip (ext : ExtLibs) :
    ∀ (l : List Js),
      (∀ f ∈ l, f ≠ Js.null ∧ f ≠ Js.undef ∧ (f.get "geometry").truthy = false) →
      validateFeatureGeometries ext l = .ok none := by
  intro l
  induction l with
  | nil => intro _; rfl
  | cons f rest ih =>
    intro h
    obtain ⟨h1, h2, h3⟩ := h f (List.mem_cons_self f rest)
    unfold validateFeatureGeometries
    rw [getE_of_not_nullish h1 h2]
    dsimp only
    rw [h3, if_neg Bool.false_ne_true]
    exact ih (fun g hg => h g (List.mem_cons_of_mem f hg))

/-- The style records a successfully parsed `FeatureCollection` yields:
one per feature with a truthy `properties`, in feature order. -/
def styleList (l : List Js) : List StyleRecord :=
  (l.filter (fun f => (f.get "properties").truthy)).map
    (fun f => extractStyleProperties (f.get "properties"))

theorem collectFCStyles_ok :
    ∀ (l : List Js), (∀ f ∈ l, f ≠ Js.null ∧ f ≠ Js.undef) →
      collectFCStyles l = .ok (styleList l) := by
  intro l
  induction l with
  | nil => intro _; rfl
  | cons f rest ih =>
    intro h
    obtain ⟨h1, h2⟩ := h f (List.mem_cons_self f rest)
    unfold collectFCStyles
    rw [getE_of_not_nullish h1 h2]
    dsimp only
    rw [ih (fun g hg => h g (List.mem_cons_of_mem f hg))]
    dsimp only
    unfold styleList
    cases hp : (f.get "properties").truthy with
    | true =>
      rw [List.filter_cons_of_pos (by exact hp), if_pos rfl]
      rfl
    | false =>
      rw [List.filter_cons_of_neg (by rw [hp]; exact Bool.false_ne_true),
          if_neg Bool.false_ne_true]

/-- A `FeatureCollection` object with the given `features` array. -/
def mkFC (l : List Js) : Js :=
  .obj [("type", .str "FeatureCollection"), ("features", .arr l)]

/-- C10 (amended): `parseGeoJSON` structurally validates only the top
level of a `FeatureCollection` (its `features` field must be an array):
any member that is not `null`/`undefined` and lacks a (truthy)
`geometry` field — including values that are not Features at all — is
skipped by geometry validation, the parse succeeds for every external
validator, such members remain in the returned data, and each one still
counts toward `geometryCount`.  (A `null`/`undefined` member, by
contrast, makes the `feature.geometry` read throw, so the parse fails
with `PARSING_ERROR` — see the counterexample.) -/
theorem parseGeoJSON_fc_skips_geometryless (ext : ExtLibs) (l : List Js)
    (h : ∀ f ∈ l, f ≠ Js.null ∧ f ≠ Js.undef ∧ (f.get "geometry").truthy = false) :
    parseGeoJSON ext (.inr (mkFC l)) =
      { success := true, data := some (mkFC l), error := none, errorCode := none,
        errorDetails := none, type := some "FeatureCollection",
        format := some LayerType.GEOJSON, geometryCount := some (l.length : Int),
        isPartialGeoJSON := none, styleProperties := some (styleList l) } := by
  have hval : validateFeatureGeometries ext l = .ok none :=
    validateFeatureGeometries_skip ext l h
  have hsty : collectFCStyles l = .ok (styleList l) :=
    collectFCStyles_ok l (fun f hf => ⟨(h f hf).1, (h f hf).2.1⟩)
  have hchecks : geoGeomChecks ext (mkFC l) (typeToOpt (.str "FeatureCollection")) =
      validateFeatureGeometries ext l := rfl
  have hbody : parseGeoJSONBody ext (mkFC l) = .ok
      { success := true, data := some (mkFC l), error := none, errorCode := none,
        errorDetails := none, type := some "FeatureCollection",
        format := some LayerType.GEOJSON, geometryCount := some (l.length : Int),
        isPartialGeoJSON := none, styleProperties := some (styleList l) } := by
    unfold parseGeoJSONBody
    rw [show geoGate ext (mkFC l) = .ok none from rfl]
    rw [show (mkFC l).getE "type" = .ok (.str "FeatureCollection") from rfl]
    dsimp only
    rw [hchecks, hval]
    dsimp only
    rw [show geoCount (mkFC l) (typeToOpt (.str "FeatureCollection")) =
        .ok (some (l.length : Int)) from rfl]
    rw [show extractAllStyleProperties (mkFC l) = collectFCStyles l from rfl, hsty]
    rfl
  unfold parseGeoJSON
  dsimp only
  rw [hbody]

/-- C10 counterexample: a `features` member that is `null` lacks a
geometry field, yet the parse does NOT succeed: the `feature.geometry`
access throws a `TypeError`, caught as `PARSING_ERROR`. -/
theorem parseGeoJSON_null_member_fails :
    (parseGeoJSON specExt (.inr (mkFC [Js.null]))).success = false ∧
    (parseGeoJSON specExt (.inr (mkFC [Js.null]))).errorCode = some ERROR_CODES.PARSING_ERROR ∧
    (parseGeoJSON specExt (.inr (mkFC [Js.null]))).data = none := by
  refine ⟨?_, ?_, ?_⟩ <;> with_unfolding_all rfl

theorem parseGeoJSON_fc_skips_geometryless_witness :
    parseGeoJSON specExt
        (.inr (mkFC [Js.num 42, Js.str "hi", .obj [("foo", .num 1)]])) =
      { success := true,
        data := some (mkFC [Js.num 42, Js.str "hi", .obj [("foo", .num 1)]]),
        error := none, errorCode := none, errorDetails := none,
        type := some "FeatureCollection", format := some LayerType.GEOJSON,
        geometryCount := some 3, isPartialGeoJSON := none,
        styleProperties := some (styleList [Js.num 42, Js.str "hi", .obj [("foo", .num 1)]]) } :=
  parseGeoJSON_fc_skips_geometryless specExt _ (by
    intro f hf
    fin_cases hf
    · exact ⟨by simp, by simp, rfl⟩
    · exact ⟨by simp, by simp, rfl⟩
    · exact ⟨by simp, by simp, rfl⟩)

theorem getE_ok_inv {f : Js} {k : String} {v : Js} (h : f.getE k = .ok v) :
    v = f.get k := by
  cases f with
  | null => cases h
  | undef => cases h
  | bool b => cases h; rfl
  | num q => cases h; rfl
  | str s => cases h; rfl
  | arr l => cases h; rfl
  | obj fs => cases h; rfl

theorem collectFCStyles_ok_inv :
    ∀ (l : List Js) (s : List StyleRecord), collectFCStyles l = .ok s → s = styleList l := by
  intro l
  induction l with
  | nil =>
    intro s h
    cases h
    rfl
  | cons f rest ih =>
    intro s h
    unfold collectFCStyles at h
    cases hge : f.getE "properties" with
    | error e => rw [hge] at h; cases h
    | ok props =>
      rw [hge] at h
      cases hcr : collectFCStyles rest with
      | error e => rw [hcr] at h; cases h
      | ok tail =>
        rw [hcr] at h
        have hprops : props = f.get "properties" := getE_ok_inv hge
        subst hprops
        have htail : tail = styleList rest := ih tail hcr
        subst htail
        dsimp only at h
        unfold styleList
        split at h
        next hp =>
          cases h
          rw [List.filter_cons_of_pos (by exact hp)]
          rfl
        next hp =>
          cases h
          rw [List.filter_cons_of_neg (by exact hp)]
          rfl

theorem validateFeatureGeometries_some_fails (ext : ExtLibs) :
    ∀ (l : List Js) (r : ParseResult),
      validateFeatureGeometries ext l = .ok (some r) → r.success = false := by
  intro l
  induction l with
  | nil => intro r h; cases h
  | cons f rest ih =>
    intro r h
    unfold validateFeatureGeometries at h
    cases hge : f.getE "geometry" with
    | error e => rw [hge] at h; cases h
    | ok geom =>
      rw [hge] at h
      dsimp only at h
      split at h
      next =>
        cases hb : ext.booleanValid geom with
        | error e => rw [hb] at h; cases h; rfl
        | ok b =>
          cases b with
          | true => rw [hb] at h; exact ih r h
          | false => rw [hb] at h; cases h; rfl
      next => exact ih r h

theorem isValidGeoJSON_fc (fields : List (String × Js)) (l : List Js)
    (ht : Js.get (.obj fields) "type" = .str "FeatureCollection")
    (hft : Js.get (.obj fields) "features" = .arr l) :
    isValidGeoJSON (.obj fields) = true := by
  unfold isValidGeoJSON
  rw [ht, hft]
  with_unfolding_all rfl

/-- C9 (amended): for every `FeatureCollection` successfully parsed by
the GeoJSON parser, `styleProperties` is the ordered sequence of one
extracted style record per feature whose `properties` is truthy, in
feature order; features with `null`/absent `properties` contribute no
record. -/
theorem parseGeoJSON_fc_styleProperties (ext : ExtLibs) (d : Js) (l : List Js)
    (ht : d.get "type" = .str "FeatureCollection")
    (hft : d.get "features" = .arr l)
    (hs : (parseGeoJSON ext (.inr d)).success = true) :
    (parseGeoJSON ext (.inr d)).styleProperties = some (styleList l) := by
  obtain ⟨fields, rfl⟩ : ∃ fs, d = .obj fs := by
    cases d with
    | obj fs => exact ⟨fs, rfl⟩
    | null => cases ht
    | undef => cases ht
    | bool b => cases ht
    | num q => cases ht
    | str s => cases ht
    | arr a => cases ht
  have hgate : geoGate ext (.obj fields) = .ok none := by
    unfold geoGate
    rw [isValidGeoJSON_fc fields l ht hft]
    rfl
  have htE : (Js.obj fields).getE "type" = .ok (.str "FeatureCollection") := by
    show Except.ok ((Js.obj fields).get "type") = _
    rw [ht]
  have hchecks : geoGeomChecks ext (.obj fields) (typeToOpt (.str "FeatureCollection")) =
      validateFeatureGeometries ext l := by
    unfold geoGeomChecks
    rw [hft]
    with_unfolding_all rfl
  have hcount : geoCount (.obj fields) (typeToOpt (.str "FeatureCollection")) =
      .ok (some (l.length : Int)) := by
    unfold geoCount
    rw [hft]
    with_unfolding_all rfl
  have hsty0 : extractAllStyleProperties (.obj fields) = collectFCStyles l := by
    unfold extractAllStyleProperties
    rw [htE]
    try dsimp only
    rw [hft]
    rfl
  unfold parseGeoJSON at hs ⊢
  try dsimp only at hs ⊢
  unfold parseGeoJSONBody at hs ⊢
  rw [hgate] at hs ⊢
  try dsimp only at hs ⊢
  rw [htE] at hs ⊢
  try dsimp only at hs ⊢
  rw [hchecks] at hs ⊢
  cases hvf : validateFeatureGeometries ext l with
  | error e =>
    rw [hvf] at hs
    cases hs
  | ok o =>
    cases o with
    | some r =>
      rw [hvf] at hs
      try dsimp only at hs
      exact absurd hs (by rw [validateFeatureGeometries_some_fails ext l r hvf]; exact Bool.false_ne_true)
    | none =>
      rw [hvf] at hs
      try dsimp only at hs ⊢
      rw [hcount] at hs ⊢
      try dsimp only at hs ⊢
      rw [hsty0] at hs ⊢
      cases hcs : collectFCStyles l with
      | error e =>
        rw [hcs] at hs
        cases hs
      | ok styles =>
        try dsimp only
        rw [collectFCStyles_ok_inv l styles hcs]

def featureNullProps : Js :=
  .obj [("type", .str "Feature"), ("geometry", Js.null), ("properties", Js.null)]

def featureWithStroke : Js :=
  .obj [("type", .str "Feature"), ("geometry", Js.null),
        ("properties", .obj [("stroke", .str "#ff0000")])]

/-- C9 counterexample: a `FeatureCollection` with exactly one feature
whose `properties` is `null` parses successfully with
`geometryCount = 1` but an empty `styleProperties` — not one record per
feature. -/
theorem parseGeoJSON_null_properties_skipped :
    (parseGeoJSON specExt (.inr (mkFC [featureNullProps]))).success = true ∧
    (parseGeoJSON specExt (.inr (mkFC [featureNullProps]))).geometryCount = some 1 ∧
    (parseGeoJSON specExt (.inr (mkFC [featureNullProps]))).styleProperties = some [] := by
  refine ⟨?_, ?_, ?_⟩ <;> with_unfolding_all rfl

theorem parseGeoJSON_fc_styleProperties_witness :
    (parseGeoJSON specExt
        (.inr (mkFC [featureNullProps, featureWithStroke]))).styleProperties =
      some (styleList [featureNullProps, featureWithStroke]) :=
  parseGeoJSON_fc_styleProperties specExt (mkFC [featureNullProps, featureWithStroke])
    [featureNullProps, featureWithStroke] rfl rfl (by with_unfolding_all rfl)

/-! ### Coordinate-order claims (Lat/Lng list and Polyline parsers) -/

/-- The per-pair property C6 asserts of the Lat/Lng parser: tokens are
consumed in consecutive `(lat, lng)` pairs, each in range, and each
output position is the reversed pair `[lng, lat]`. -/
def pairsReversedInRange : List String → List (List ℚ) → Prop
  | [], [] => True
  | [_], [] => True
  | a :: b :: rest, c :: cs =>
      (∃ la ln, parseFloatQ a = some la ∧ parseFloatQ b = some ln ∧
        -90 ≤ la ∧ la ≤ 90 ∧ -180 ≤ ln ∧ ln ≤ 180 ∧ c = [ln, la]) ∧
      pairsReversedInRange rest cs
  | _, _ => False

/-- The per-pair property C6 asserts of the Polyline parser: each
decoded `(lat, lng)` pair is in range and each output position is the
reversed `[lng, lat]`. -/
def coordsReversedInRange : List (ℚ × ℚ) → List Js → Prop
  | [], [] => True
  | (la, ln) :: rest, c :: cs =>
      -90 ≤ la ∧ la ≤ 90 ∧ -180 ≤ ln ∧ ln ≤ 180 ∧
      c = .arr [.num ln, .num la] ∧ coordsReversedInRange rest cs
  | _, _ => False

theorem processLatLngPairs_ok :
    ∀ (tokens : List String) (coords : List (List ℚ)),
      processLatLngPairs tokens = .ok coords → pairsReversedInRange tokens coords
  | [], coords, h => by
    cases h
    trivial
  | [a], coords, h => by
    cases h
    trivial
  | a :: b :: rest, coords, h => by
    unfold processLatLngPairs at h
    cases hfa : parseFloatQ a with
    | none => rw [hfa] at h; cases h
    | some la =>
      cases hfb : parseFloatQ b with
      | none => rw [hfa, hfb] at h; cases h
      | some ln =>
        rw [hfa, hfb] at h
        dsimp only at h
        split at h
        next => cases h
        next hc1 =>
          split at h
          next => cases h
          next hc2 =>
            cases hrest : processLatLngPairs rest with
            | error r => rw [hrest] at h; cases h
            | ok tail =>
              rw [hrest] at h
              cases h
              simp only [Bool.or_eq_true, decide_eq_true_eq, not_or] at hc1 hc2
              exact ⟨⟨la, ln, hfa, hfb, le_of_not_lt hc1.1, le_of_not_lt hc1.2,
                le_of_not_lt hc2.1, le_of_not_lt hc2.2, rfl⟩,
                processLatLngPairs_ok rest tail hrest⟩

theorem validatePolylineCoords_ok :
    ∀ (cs : List (ℚ × ℚ)) (vcs : List Js),
      validatePolylineCoords cs = .ok vcs → coordsReversedInRange cs vcs
  | [], vcs, h => by
    cases h
    trivial
  | (la, ln) :: rest, vcs, h => by
    unfold validatePolylineCoords at h
    split at h
    next => cases h
    next hc1 =>
      split at h
      next => cases h
      next hc2 =>
        cases hrest : validatePolylineCoords rest with
        | error e => rw [hrest] at h; cases h
        | ok tail =>
          rw [hrest] at h
          cases h
          simp only [Bool.or_eq_true, decide_eq_true_eq, not_or] at hc1 hc2
          exact ⟨le_of_not_lt hc1.1, le_of_not_lt hc1.2,
            le_of_not_lt hc2.1, le_of_not_lt hc2.2, rfl,
            validatePolylineCoords_ok rest tail hrest⟩

theorem processLatLngPairs_error_shape :
    ∀ (tokens : List String) (r : ParseResult),
      processLatLngPairs tokens = .error r → ∃ a b c, r = createErrorResult a b c
  | [], r, h => by cases h
  | [_], r, h => by cases h
  | a :: b :: rest, r, h => by
    unfold processLatLngPairs at h
    cases hfa : parseFloatQ a with
    | none => rw [hfa] at h; cases h; exact ⟨_, _, _, rfl⟩
    | some la =>
      cases hfb : parseFloatQ b with
      | none => rw [hfa, hfb] at h; cases h; exact ⟨_, _, _, rfl⟩
      | some ln =>
        rw [hfa, hfb] at h
        dsimp only at h
        split at h
        next => cases h; exact ⟨_, _, _, rfl⟩
        next =>
          split at h
          next => cases h; exact ⟨_, _, _, rfl⟩
          next =>
            cases hrest : processLatLngPairs rest with
            | error r2 =>
              rw [hrest] at h
              cases h
              exact processLatLngPairs_error_shape rest _ hrest
            | ok tail => rw [hrest] at h; cases h

/-- The success result `parseLatLngList` builds from its coordinate
list. -/
def latLngSuccess (coordinates : List (List ℚ)) : ParseResult :=
  { success := true,
    data := some (.obj [("type", .str "FeatureCollection"),
                        ("features", .arr (latLngFeatures coordinates))]),
    error := none, errorCode := none, errorDetails := none,
    type := some "FeatureCollection", format := some LayerType.COORDINATES,
    geometryCount := some (coordinates.length : Int), isPartialGeoJSON := none,
    styleProperties := some [] }

theorem parseLatLngList_shape (input : String) :
    (∃ a b c, parseLatLngList input = createErrorResult a b c) ∨
    (∃ coords, processLatLngPairs (extractNumberTokens (trimS input)) = .ok coords ∧
      coords ≠ [] ∧ parseLatLngList input = latLngSuccess coords) := by
  unfold parseLatLngList
  dsimp only
  split
  next => exact Or.inl ⟨_, _, _, rfl⟩
  next =>
    split
    next => exact Or.inl ⟨_, _, _, rfl⟩
    next =>
      split
      next => exact Or.inl ⟨_, _, _, rfl⟩
      next =>
        cases hpp : processLatLngPairs (extractNumberTokens (trimS input)) with
        | error r => exact Or.inl (processLatLngPairs_error_shape _ r hpp)
        | ok coords =>
          dsimp only
          split
          next hemp2 =>
            exact Or.inl ⟨_, _, _, rfl⟩
          next hemp2 =>
            refine Or.inr ⟨coords, rfl, ?_, rfl⟩
            intro hnil
            exact hemp2 (by rw [hnil]; rfl)

/-- The success result `parsePolyline` builds from the validated
coordinates. -/
def polylineSuccess (vcs : List Js) : ParseResult :=
  { success := true,
    data := some (.obj [("type", .str "Feature"),
                        ("geometry", .obj [("type", .str "LineString"),
                                           ("coordinates", .arr vcs)]),
                        ("properties", .obj [])]),
    error := none, errorCode := none, errorDetails := none,
    type := some "Feature", format := some LayerType.POLYLINE,
    geometryCount := some 1, isPartialGeoJSON := none, styleProperties := some [] }

theorem parsePolyline_shape (ext : ExtLibs) (input : String)
    (options : Option PolylineOptions) :
    (∃ a b c, parsePolyline ext input options = createErrorResult a b c) ∨
    (∃ pre cs vcs,
      ((effectiveUnescape options = true ∧ ext.decodeURIFn (trimS input) = .ok pre) ∨
       (effectiveUnescape options = false ∧ pre = trimS input)) ∧
      ext.polylineDecode pre = .ok cs ∧
      validatePolylineCoords cs = .ok vcs ∧
      parsePolyline ext input options = polylineSuccess vcs) := by
  unfold parsePolyline
  cases hcore : parsePolylineCore ext input options with
  | error e => exact Or.inl ⟨_, _, _, rfl⟩
  | ok r =>
    dsimp only
    unfold parsePolylineCore at hcore
    dsimp only at hcore
    split at hcore
    next => cases hcore; exact Or.inl ⟨_, _, _, rfl⟩
    next =>
      split at hcore
      next => cases hcore; exact Or.inl ⟨_, _, _, rfl⟩
      next =>
        cases heff : effectiveUnescape options with
        | true =>
          rw [heff, if_pos rfl] at hcore
          cases hdec : ext.decodeURIFn (trimS input) with
          | error e => rw [hdec] at hcore; cases hcore
          | ok pre =>
            rw [hdec] at hcore
            dsimp only at hcore
            cases hdec2 : ext.polylineDecode pre with
            | error e => rw [hdec2] at hcore; cases hcore
            | ok cs =>
              rw [hdec2] at hcore
              dsimp only at hcore
              split at hcore
              next => cases hcore; exact Or.inl ⟨_, _, _, rfl⟩
              next =>
                cases hval : validatePolylineCoords cs with
                | error e => rw [hval] at hcore; cases hcore
                | ok vcs =>
                  rw [hval] at hcore
                  cases hcore
                  exact Or.inr ⟨pre, cs, vcs, Or.inl ⟨rfl, rfl⟩, hdec2, hval, rfl⟩
        | false =>
          rw [heff, if_neg Bool.false_ne_true] at hcore
          dsimp only at hcore
          cases hdec2 : ext.polylineDecode (trimS input) with
          | error e => rw [hdec2] at hcore; cases hcore
          | ok cs =>
            rw [hdec2] at hcore
            dsimp only at hcore
            split at hcore
            next => cases hcore; exact Or.inl ⟨_, _, _, rfl⟩
            next =>
              cases hval : validatePolylineCoords cs with
              | error e => rw [hval] at hcore; cases hcore
              | ok vcs =>
                rw [hval] at hcore
                cases hcore
                exact Or.inr ⟨trimS input, cs, vcs, Or.inr ⟨rfl, rfl⟩, hdec2, hval, rfl⟩

/-- C6: every successful Lat/Lng-list or Polyline parse outputs, for
each `(lat, lng)` input pair (extracted token pair, resp. decoded
codec pair), the reversed GeoJSON position `[lng, lat]`, and success
requires every pair to satisfy `lat ∈ [-90, 90]`, `lng ∈ [-180, 180]`;
the first out-of-range value aborts the whole parse, and a failed
parse carries no data (no partial output). -/
theorem coordinate_conversion_reversed :
    (∀ input : String,
      ((parseLatLngList input).success = true →
        ∃ coords, processLatLngPairs (extractNumberTokens (trimS input)) = .ok coords ∧
          pairsReversedInRange (extractNumberTokens (trimS input)) coords ∧
          parseLatLngList input = latLngSuccess coords) ∧
      ((parseLatLngList input).success = false → (parseLatLngList input).data = none)) ∧
    (∀ (ext : ExtLibs) (input : String) (options : Option PolylineOptions),
      ((parsePolyline ext input options).success = true →
        ∃ pre cs vcs,
          ((effectiveUnescape options = true ∧ ext.decodeURIFn (trimS input) = .ok pre) ∨
           (effectiveUnescape options = false ∧ pre = trimS input)) ∧
          ext.polylineDecode pre = .ok cs ∧
          coordsReversedInRange cs vcs ∧
          parsePolyline ext input options = polylineSuccess vcs) ∧
      ((parsePolyline ext input options).success = false →
        (parsePolyline ext input options).data = none)) := by
  constructor
  · intro input
    constructor
    · intro hs
      rcases parseLatLngList_shape input with ⟨a, b, c, heq⟩ | ⟨coords, hpp, hne, heq⟩
      · rw [heq] at hs; cases hs
      · exact ⟨coords, hpp, processLatLngPairs_ok _ _ hpp, heq⟩
    · intro hf
      rcases parseLatLngList_shape input with ⟨a, b, c, heq⟩ | ⟨coords, hpp, hne, heq⟩
      · rw [heq]; rfl
      · rw [heq] at hf; cases hf
  · intro ext input options
    constructor
    · intro hs
      rcases parsePolyline_shape ext input options with
        ⟨a, b, c, heq⟩ | ⟨pre, cs, vcs, hpre, hdec, hval, heq⟩
      · rw [heq] at hs; cases hs
      · exact ⟨pre, cs, vcs, hpre, hdec, validatePolylineCoords_ok _ _ hval, heq⟩
    · intro hf
      rcases parsePolyline_shape ext input options with
        ⟨a, b, c, heq⟩ | ⟨pre, cs, vcs, hpre, hdec, hval, heq⟩
      · rw [heq]; rfl
      · rw [heq] at hf; cases hf

theorem coordinate_conversion_reversed_witness :
    (parseLatLngList "40.7484,-73.9857").success = true ∧
    (∃ coords,
      processLatLngPairs (extractNumberTokens (trimS "40.7484,-73.9857")) = .ok coords ∧
      pairsReversedInRange (extractNumberTokens (trimS "40.7484,-73.9857")) coords ∧
      parseLatLngList "40.7484,-73.9857" = latLngSuccess coords) ∧
    (parsePolyline specExt "_p~iF~ps|U" none).success = true ∧
    (∃ pre cs vcs,
      ((effectiveUnescape (none : Option PolylineOptions) = true ∧
        specExt.decodeURIFn (trimS "_p~iF~ps|U") = .ok pre) ∨
       (effectiveUnescape (none : Option PolylineOptions) = false ∧
        pre = trimS "_p~iF~ps|U")) ∧
      specExt.polylineDecode pre = .ok cs ∧
      coordsReversedInRange cs vcs ∧
      parsePolyline specExt "_p~iF~ps|U" none = polylineSuccess vcs) := by
  refine ⟨by with_unfolding_all rfl,
    (coordinate_conversion_reversed.1 "40.7484,-73.9857").1 (by with_unfolding_all rfl),
    by with_unfolding_all rfl,
    (coordinate_conversion_reversed.2 specExt "_p~iF~ps|U" none).1 (by with_unfolding_all rfl)⟩

/-! ### The ParseResult invariant -/

/-- The `ParseResult` well-formedness invariant of C1 (with the
`geometryCount` bound): success iff data present; on success no error
fields; on failure no data but error and errorCode present; any present
`geometryCount` is nonnegative. -/
def resultWF (r : ParseResult) : Prop :=
  (r.success = true ↔ r.data.isSome = true) ∧
  (r.success = true → r.error = none ∧ r.errorCode = none ∧ r.errorDetails = none) ∧
  (r.success = false → r.data = none ∧ r.error.isSome = true ∧ r.errorCode.isSome = true) ∧
  (∀ n : Int, r.geometryCount = some n → 0 ≤ n)

theorem resultWF_createError (a b c : String) : resultWF (createErrorResult a b c) := by
  refine ⟨by simp [createErrorResult], ?_, ?_, ?_⟩
  · intro h; cases h
  · intro _; exact ⟨rfl, rfl, rfl⟩
  · intro n h; cases h

theorem resultWF_latLngSuccess (coords : List (List ℚ)) :
    resultWF (latLngSuccess coords) := by
  refine ⟨by simp [latLngSuccess], ?_, ?_, ?_⟩
  · intro _; exact ⟨rfl, rfl, rfl⟩
  · intro h; cases h
  · intro n h
    cases h
    exact Int.natCast_nonneg _

theorem resultWF_polylineSuccess (vcs : List Js) : resultWF (polylineSuccess vcs) := by
  refine ⟨by simp [polylineSuccess], ?_, ?_, ?_⟩
  · intro _; exact ⟨rfl, rfl, rfl⟩
  · intro h; cases h
  · intro n h
    cases h
    norm_num

theorem parseLatLngList_wf (input : String) :
    resultWF (parseLatLngList input) ∧
    ((parseLatLngList input).success = true →
      ∃ n : Int, 1 ≤ n ∧ (parseLatLngList input).geometryCount = some n) := by
  rcases parseLatLngList_shape input with ⟨a, b, c, heq⟩ | ⟨coords, hpp, hne, heq⟩
  · rw [heq]
    refine ⟨resultWF_createError a b c, ?_⟩
    intro h; cases h
  · rw [heq]
    refine ⟨resultWF_latLngSuccess coords, ?_⟩
    intro _
    refine ⟨(coords.length : Int), ?_, rfl⟩
    have hlen : 1 ≤ coords.length := by
      cases coords with
      | nil => exact absurd rfl hne
      | cons x xs => simp
    exact_mod_cast hlen

theorem parsePolyline_wf (ext : ExtLibs) (input : String)
    (options : Option PolylineOptions) :
    resultWF (parsePolyline ext input options) ∧
    ((parsePolyline ext input options).success = true →
      (parsePolyline ext input options).geometryCount = some 1) := by
  rcases parsePolyline_shape ext input options with
    ⟨a, b, c, heq⟩ | ⟨pre, cs, vcs, hpre, hdec, hval, heq⟩
  · rw [heq]
    refine ⟨resultWF_createError a b c, ?_⟩
    intro h; cases h
  · rw [heq]
    exact ⟨resultWF_polylineSuccess vcs, fun _ => rfl⟩

/-- The success result `parseWKT` builds from the parsed geometry. -/
def wktSuccess (parsed : Js) : ParseResult :=
  { success := true,
    data := some (.obj [("type", .str "Feature"), ("geometry", parsed),
                        ("properties", .obj [])]),
    error := none, errorCode := none, errorDetails := none,
    type := some "Feature", format := some LayerType.WKT,
    geometryCount := some 1, isPartialGeoJSON := none, styleProperties := some [] }

theorem parseWKT_shape (ext : ExtLibs) (input : String) :
    (∃ a b c, parseWKT ext input = createErrorResult a b c) ∨
    (∃ parsed, ext.wktParse (trimS input) = .ok parsed ∧
      parseWKT ext input = wktSuccess parsed) := by
  unfold parseWKT
  cases hcore : parseWKTCore ext input with
  | error e => exact Or.inl ⟨_, _, _, rfl⟩
  | ok r =>
    dsimp only
    unfold parseWKTCore at hcore
    dsimp only at hcore
    split at hcore
    next => cases hcore; exact Or.inl ⟨_, _, _, rfl⟩
    next =>
      cases hwkt : ext.wktParse (trimS input) with
      | error e => rw [hwkt] at hcore; cases hcore
      | ok parsed =>
        rw [hwkt] at hcore
        dsimp only at hcore
        split at hcore
        next => cases hcore; exact Or.inl ⟨_, _, _, rfl⟩
        next =>
          cases hb : ext.booleanValid parsed with
          | error e => rw [hb] at hcore; cases hcore; exact Or.inl ⟨_, _, _, rfl⟩
          | ok b =>
            cases b with
            | false => rw [hb] at hcore; cases hcore; exact Or.inl ⟨_, _, _, rfl⟩
            | true =>
              rw [hb] at hcore
              cases hcore
              exact Or.inr ⟨parsed, rfl, rfl⟩

theorem resultWF_wktSuccess (parsed : Js) : resultWF (wktSuccess parsed) := by
  refine ⟨by simp [wktSuccess], ?_, ?_, ?_⟩
  · intro _; exact ⟨rfl, rfl, rfl⟩
  · intro h; cases h
  · intro n h
    cases h
    norm_num

theorem parseWKT_wf (ext : ExtLibs) (input : String) :
    resultWF (parseWKT ext input) ∧
    ((parseWKT ext input).success = true → (parseWKT ext input).geometryCount = some 1) := by
  rcases parseWKT_shape ext input with ⟨a, b, c, heq⟩ | ⟨parsed, hwkt, heq⟩
  · rw [heq]
    refine ⟨resultWF_createError a b c, ?_⟩
    intro h; cases h
  · rw [heq]
    exact ⟨resultWF_wktSuccess parsed, fun _ => rfl⟩

theorem parsePartialGeoJSONOnValue_shape (ext : ExtLibs) (v : Js) (r : ParseResult)
    (h : parsePartialGeoJSONOnValue ext v = .ok r) :
    (∃ a b c, r = createErrorResult a b c) ∨
    (∃ styles, r =
      { success := true,
        data := some (.obj [("type", .str "Feature"), ("geometry", v),
                            ("properties", .obj [])]),
        error := none, errorCode := none, errorDetails := none,
        type := some "Feature", format := some LayerType.GEOJSON,
        geometryCount := some 1, isPartialGeoJSON := some true,
        styleProperties := some styles }) := by
  unfold parsePartialGeoJSONOnValue at h
  split at h
  next =>
    cases hb : ext.booleanValid v with
    | error e => rw [hb] at h; cases h; exact Or.inl ⟨_, _, _, rfl⟩
    | ok b =>
      cases b with
      | false => rw [hb] at h; cases h; exact Or.inl ⟨_, _, _, rfl⟩
      | true =>
        rw [hb] at h
        dsimp only at h
        cases hst : extractAllStyleProperties
            (.obj [("type", .str "Feature"), ("geometry", v), ("properties", .obj [])]) with
        | error e => rw [hst] at h; cases h
        | ok styles =>
          rw [hst] at h
          cases h
          exact Or.inr ⟨styles, rfl⟩
  next => cases h; exact Or.inl ⟨_, _, _, rfl⟩

theorem parsePartialGeoJSON_wf (ext : ExtLibs) (input : String ⊕ Js) :
    resultWF (parsePartialGeoJSON ext input) := by
  unfold parsePartialGeoJSON
  cases hcore : parsePartialGeoJSONCore ext input with
  | error e => exact resultWF_createError _ _ _
  | ok r =>
    dsimp only
    have hshape : (∃ a b c, r = createErrorResult a b c) ∨
        (∃ g styles, r =
          { success := true,
            data := some (.obj [("type", .str "Feature"), ("geometry", g),
                                ("properties", .obj [])]),
            error := none, errorCode := none, errorDetails := none,
            type := some "Feature", format := some LayerType.GEOJSON,
            geometryCount := some 1, isPartialGeoJSON := some true,
            styleProperties := some styles }) := by
      unfold parsePartialGeoJSONCore at hcore
      cases input with
      | inl s =>
        dsimp only at hcore
        cases hj : jsonParse s with
        | none => rw [hj] at hcore; cases hcore; exact Or.inl ⟨_, _, _, rfl⟩
        | some v =>
          rw [hj] at hcore
          rcases parsePartialGeoJSONOnValue_shape ext v r hcore with h | ⟨styles, h⟩
          · exact Or.inl h
          · exact Or.inr ⟨v, styles, h⟩
      | inr v =>
        rcases parsePartialGeoJSONOnValue_shape ext v r hcore with h | ⟨styles, h⟩
        · exact Or.inl h
        · exact Or.inr ⟨v, styles, h⟩
    rcases hshape with ⟨a, b, c, rfl⟩ | ⟨g, styles, rfl⟩
    · exact resultWF_createError a b c
    · refine ⟨by simp, ?_, ?_, ?_⟩
      · intro _; exact ⟨rfl, rfl, rfl⟩
      · intro h; cases h
      · intro n h
        cases h
        norm_num

theorem lengthE_nonneg {v : Js} {n : Int} (h : Js.lengthE v = .ok (some n)) : 0 ≤ n := by
  cases v <;> simp [Js.lengthE] at h <;> omega

theorem geoCount_nonneg (d : Js) (tOpt : Option String) (n : Int)
    (h : geoCount d tOpt = .ok (some n)) : 0 ≤ n := by
  unfold geoCount at h
  split at h
  · exact lengthE_nonneg h
  · split at h
    · simp at h; omega
    · split at h
      · exact lengthE_nonneg h
      · simp at h; omega

theorem validateFeatureGeometries_some_err (ext : ExtLibs) :
    ∀ (l : List Js) (r : ParseResult),
      validateFeatureGeometries ext l = .ok (some r) →
      ∃ a b c, r = createErrorResult a b c := by
  intro l
  induction l with
  | nil => intro r h; cases h
  | cons f rest ih =>
    intro r h
    unfold validateFeatureGeometries at h
    cases hge : f.getE "geometry" with
    | error e => rw [hge] at h; cases h
    | ok geom =>
      rw [hge] at h
      dsimp only at h
      split at h
      next =>
        cases hb : ext.booleanValid geom with
        | error e => rw [hb] at h; cases h; exact ⟨_, _, _, rfl⟩
        | ok b =>
          cases b with
          | true => rw [hb] at h; exact ih r h
          | false => rw [hb] at h; cases h; exact ⟨_, _, _, rfl⟩
      next => exact ih r h

theorem geoGeomChecks_some_err (ext : ExtLibs) (d : Js) (tOpt : Option String)
    (r : ParseResult) (h : geoGeomChecks ext d tOpt = .ok (some r)) :
    ∃ a b c, r = createErrorResult a b c := by
  unfold geoGeomChecks at h
  dsimp only at h
  split at h
  next r' heq =>
    cases h
    split at heq
    next =>
      cases hb : ext.booleanValid d with
      | error e => rw [hb] at heq; cases heq; exact ⟨_, _, _, rfl⟩
      | ok b =>
        cases b with
        | true => rw [hb] at heq; cases heq
        | false => rw [hb] at heq; cases heq; exact ⟨_, _, _, rfl⟩
    next => cases heq
  next heq =>
    split at h
    next r' heq2 =>
      cases h
      split at heq2
      next =>
        split at heq2
        next =>
          cases hb : ext.booleanValid (d.get "geometry") with
          | error e => rw [hb] at heq2; cases heq2; exact ⟨_, _, _, rfl⟩
          | ok b =>
            cases b with
            | true => rw [hb] at heq2; cases heq2
            | false => rw [hb] at heq2; cases heq2; exact ⟨_, _, _, rfl⟩
        next => cases heq2
      next => cases heq2
    next heq2 =>
      split at h
      next =>
        cases hs : Js.seqE (d.get "features") with
        | error e => rw [hs] at h; cases h
        | ok elems => rw [hs] at h; exact validateFeatureGeometries_some_err ext elems r h
      next => cases h

theorem geoGate_some_wf (ext : ExtLibs) (d : Js) (r : ParseResult)
    (h : geoGate ext d = .ok (some r)) : resultWF r := by
  unfold geoGate at h
  split at h
  next =>
    dsimp only at h
    cases hv : (ext.strictValid d).getE "valid" with
    | error e => rw [hv] at h; cases h
    | ok vField =>
      rw [hv] at h
      dsimp only at h
      split at h
      next =>
        split at h
        next =>
          cases h
          exact parsePartialGeoJSON_wf ext (asPartialInput d)
        next =>
          cases hj : joinValidationErrors ((ext.strictValid d).get "errors") with
          | error e => rw [hj] at h; cases h
          | ok errors => rw [hj] at h; cases h; exact resultWF_createError _ _ _
      next => cases h
  next => cases h

theorem parseGeoJSONBody_wf (ext : ExtLibs) (d : Js) (r : ParseResult)
    (h : parseGeoJSONBody ext d = .ok r) : resultWF r := by
  unfold parseGeoJSONBody at h
  cases hg : geoGate ext d with
  | error e => rw [hg] at h; cases h
  | ok og =>
    rw [hg] at h
    cases og with
    | some r0 => cases h; exact geoGate_some_wf ext d _ hg
    | none =>
      cases hty : d.getE "type" with
      | error e => rw [hty] at h; cases h
      | ok dtypeJs =>
        rw [hty] at h
        dsimp only at h
        cases hgc : geoGeomChecks ext d (typeToOpt dtypeJs) with
        | error e => rw [hgc] at h; cases h
        | ok oc =>
          rw [hgc] at h
          cases oc with
          | some r1 =>
            cases h
            obtain ⟨a, b, c, hr⟩ := geoGeomChecks_some_err ext d (typeToOpt dtypeJs) _ hgc
            rw [hr]
            exact resultWF_createError a b c
          | none =>
            cases hcount : geoCount d (typeToOpt dtypeJs) with
            | error e => rw [hcount] at h; cases h
            | ok gcOpt =>
              rw [hcount] at h
              cases hst : extractAllStyleProperties d with
              | error e => rw [hst] at h; cases h
              | ok styles =>
                rw [hst] at h
                cases h
                refine ⟨by simp, ?_, ?_, ?_⟩
                · intro _; exact ⟨rfl, rfl, rfl⟩
                · intro hfalse; cases hfalse
                · intro n hn
                  dsimp only at hn
                  exact geoCount_nonneg d _ n (by rw [hcount, hn])

theorem parseGeoJSON_wf (ext : ExtLibs) (input : String ⊕ Js) :
    resultWF (parseGeoJSON ext input) := by
  unfold parseGeoJSON
  dsimp only
  cases input with
  | inl s =>
    dsimp only
    cases hj : jsonParse s with
    | none => exact resultWF_createError _ _ _
    | some v =>
      dsimp only
      cases hb : parseGeoJSONBody ext v with
      | error e => exact resultWF_createError _ _ _
      | ok r => exact parseGeoJSONBody_wf ext v r hb
  | inr v =>
    dsimp only
    cases hb : parseGeoJSONBody ext v with
    | error e => exact resultWF_createError _ _ _
    | ok r => exact parseGeoJSONBody_wf ext v r hb

theorem parseMultiFormatLoop_wf :
    ∀ (ps : List (String × (Unit → ParseResult))) (errors : List String),
      (∀ p ∈ ps, resultWF (p.2 ())) → resultWF (parseMultiFormatLoop ps errors) := by
  intro ps
  induction ps with
  | nil => intro errors _; exact resultWF_createError _ _ _
  | cons p rest ih =>
    obtain ⟨name, f⟩ := p
    intro errors hall
    unfold parseMultiFormatLoop
    dsimp only
    split
    next => exact hall (name, f) (List.mem_cons_self _ _)
    next => exact ih _ (fun q hq => hall q (List.mem_cons_of_mem _ hq))

theorem parseMultiFormat_wf (ext : ExtLibs) (input : String)
    (options : Option MultiFormatOptions) :
    resultWF (parseMultiFormat ext input options) := by
  unfold parseMultiFormat
  dsimp only
  split
  next => exact resultWF_createError _ _ _
  next =>
    apply parseMultiFormatLoop_wf
    intro p hp
    simp only [List.mem_cons, List.not_mem_nil, or_false] at hp
    rcases hp with rfl | rfl | rfl | rfl
    · exact parseGeoJSON_wf ext _
    · exact (parseWKT_wf ext _).1
    · exact (parsePolyline_wf ext _ _).1
    · exact (parseLatLngList_wf _).1

/-- C1 (amended): every result of the four format parsers and of the
dispatcher satisfies the well-formedness invariant `resultWF`: success
iff `data` is present; success implies the error fields are absent;
failure implies `data` is absent while `error` and `errorCode` are
present; any present `geometryCount` is nonnegative.  Moreover a
successful WKT or Polyline parse has `geometryCount = 1` and a
successful Lat/Lng List parse has `geometryCount ≥ 1`.  The claim's
final clause — a successful parse never has `geometryCount = 0` — is
dropped for the GeoJSON parser: see the counterexample below. -/
theorem parse_result_invariant (ext : ExtLibs) (input : String ⊕ Js) (s : String)
    (popts : Option PolylineOptions) (mopts : Option MultiFormatOptions) :
    resultWF (parseGeoJSON ext input) ∧
    resultWF (parseWKT ext s) ∧
    resultWF (parsePolyline ext s popts) ∧
    resultWF (parseLatLngList s) ∧
    resultWF (parseMultiFormat ext s mopts) ∧
    ((parseWKT ext s).success = true → (parseWKT ext s).geometryCount = some 1) ∧
    ((parsePolyline ext s popts).success = true →
      (parsePolyline ext s popts).geometryCount = some 1) ∧
    ((parseLatLngList s).success = true →
      ∃ n : Int, 1 ≤ n ∧ (parseLatLngList s).geometryCount = some n) :=
  ⟨parseGeoJSON_wf ext input, (parseWKT_wf ext s).1, (parsePolyline_wf ext s popts).1,
   (parseLatLngList_wf s).1, parseMultiFormat_wf ext s mopts,
   (parseWKT_wf ext s).2, (parsePolyline_wf ext s popts).2, (parseLatLngList_wf s).2⟩

/-- C1, counterexample to the original claim: the GeoJSON parser
succeeds on an empty `FeatureCollection` with `geometryCount = 0`. -/
theorem parseGeoJSON_emptyFC_zero_count :
    (parseGeoJSON specExt (.inr (mkFC []))).success = true ∧
    (parseGeoJSON specExt (.inr (mkFC []))).geometryCount = some 0 := by
  constructor <;> with_unfolding_all rfl

/-- Witness: the concrete input "1 2" parses successfully as a Lat/Lng
List, and the invariant theorem yields its positive geometry count. -/
theorem parse_result_invariant_witness :
    (parseLatLngList "1 2").success = true ∧
    (∃ n : Int, 1 ≤ n ∧ (parseLatLngList "1 2").geometryCount = some n) :=
  ⟨by with_unfolding_all rfl,
   (parse_result_invariant specExt (.inl "") "1 2" none none).2.2.2.2.2.2.2
     (by with_unfolding_all rfl)⟩
